import Mathlib

/-!
# timeseries-db: query filter builder and metric query engine

A shallow embedding of `api/internal/model/model.go`,
`api/internal/storage/mongodb/mongo.go` and `api/internal/handler/handler.go`.

Conventions of the embedding

* Go's `int`, `int32`, `int64` are `Int`; where a range matters it is checked explicitly
  (`strconv.Atoi` on a 64-bit platform).
* `float64` values are only carried by this code, never computed on; they are kept as
  their IEEE-754 bit pattern.
* `time.Time` is an instant: seconds since the Unix epoch and nanoseconds within the second.
* a Go slice is a `List`; the nil slice and the empty slice are both `[]` (the code only
  ever takes `len` of them).
* a Go `(value, error)` return is `Outcome.returned value err`; a run-time panic is
  `Outcome.panicked`.
* the MongoDB server is the environment: a function from the call issued to the reply.
  Every operation returns the list of calls it issued next to its outcome.
-/

namespace TimeseriesDB

/-! ## Go runtime values -/

/-- A `float64`, kept as its IEEE-754 bit pattern. -/
structure Float64 where
  bits : Nat
deriving DecidableEq, Repr

/-- A `time.Time` instant: seconds since the Unix epoch, nanoseconds within the second. -/
structure Time where
  sec : Int
  nsec : Int
deriving DecidableEq, Repr

namespace Time

/-- Go `time.Unix(sec, nsec)`: an `nsec` outside `[0, 999999999]` is carried into `sec`. -/
def Unix (sec nsec : Int) : Time :=
  if nsec < 0 ∨ nsec ≥ 1000000000 then
    ⟨sec + nsec / 1000000000, nsec % 1000000000⟩
  else
    ⟨sec, nsec⟩

/-- Go `t.Before(u) || t.Equal(u)`: the instant `t` is not after `u`. -/
def le (t u : Time) : Prop :=
  t.sec < u.sec ∨ (t.sec = u.sec ∧ t.nsec ≤ u.nsec)

instance : LE Time := ⟨Time.le⟩

instance (t u : Time) : Decidable (t ≤ u) :=
  inferInstanceAs (Decidable (t.sec < u.sec ∨ (t.sec = u.sec ∧ t.nsec ≤ u.nsec)))

end Time

/-- A `time.Duration`, in nanoseconds. -/
abbrev Duration := Int

/-- Go `time.Second`. -/
def Second : Duration := 1000000000

/-- A Go `error` value as this code meets it: the driver's sentinel `mongo.ErrNoDocuments`,
any other error (by its message), an error made by `fmt.Errorf` without `%w`, or one made
with `%w` around a cause. -/
inductive GoError where
  | ErrNoDocuments
  | other (msg : String)
  | errorf (msg : String)
  | wrapped (msg : String) (cause : GoError)
deriving DecidableEq, Repr

namespace GoError

/-- Go `err.Error()`. -/
def Error : GoError → String
  | ErrNoDocuments => "mongo: no documents in result"
  | other msg => msg
  | errorf msg => msg
  | wrapped msg _ => msg

end GoError

/-- What a Go call with result type `(α, error)` does: it returns, or it panics. -/
inductive Outcome (α : Type) where
  | returned (value : α) (err : Option GoError)
  | panicked (msg : String)
deriving Repr

/-! ## model.go -/

/-- Go `type MetricType int32`. -/
abbrev MetricType := Int

def MetricTypeNone : MetricType := 0
def MetricTypeCPULoad : MetricType := 1
def MetricTypeConcurrency : MetricType := 2

/-- Go `type Frequency int32`. -/
abbrev Frequency := Int

def FrequencyNone : Frequency := 0
def FrequencyBySeconds : Frequency := 1
def FrequencyByMinutes : Frequency := 2
def FrequencyByHours : Frequency := 3
def FrequencyByDays : Frequency := 4
def FrequencyByMonths : Frequency := 5
def FrequencyByYears : Frequency := 6

/-- Go `model.Query`. -/
structure Query where
  StartAt : Time
  EndAt : Time
  MetricType : MetricType
  Frequency : Frequency
deriving DecidableEq, Repr

/-- Go `model.Metric`; a field the stored document lacks decodes to its zero value. -/
structure Metric where
  Timestamp : Time
  CPULoad : Float64
  Concurrency : Int
deriving DecidableEq, Repr

/-- Go `model.MetricAverage`. -/
structure MetricAverage where
  StartTime : Time
  EndTime : Time
  CPULoad : Float64
  Concurrency : Float64
deriving DecidableEq, Repr

/-! ## The driver: BSON values, options, calls and replies -/

/-- The BSON values this package builds: `bson.D` (ordered), `primitive.M` (a Go map; the
list gives its entries in the order of the source literal), strings, integers and times. -/
inductive Bson where
  | D (elems : List (String × Bson))
  | M (entries : List (String × Bson))
  | str (s : String)
  | int (i : Int)
  | time (t : Time)

/-- Go `options.FindOptions`, the two fields this package sets (`SortSpec` is Go's `Sort`,
a reserved word here). -/
structure FindOptions where
  SortSpec : Option Bson
  Projection : Option Bson

namespace FindOptions

/-- Go `options.Find()`. -/
def Find : FindOptions := ⟨none, none⟩

def SetSort (o : FindOptions) (sort : Bson) : FindOptions := { o with SortSpec := some sort }

def SetProjection (o : FindOptions) (projection : Bson) : FindOptions :=
  { o with Projection := some projection }

end FindOptions

/-- Go `options.AggregateOptions`, the field this package sets. -/
structure AggregateOptions where
  MaxTime : Option Duration

namespace AggregateOptions

/-- Go `options.Aggregate()`. -/
def Aggregate : AggregateOptions := ⟨none⟩

def SetMaxTime (o : AggregateOptions) (d : Duration) : AggregateOptions :=
  { o with MaxTime := some d }

end AggregateOptions

/-- A call on `client.Database(database).Collection(collection)`. -/
inductive StoreCall where
  | Find (database collection : String) (filter : Bson) (opts : FindOptions)
  | Aggregate (database collection : String) (pipeline : List Bson) (opts : AggregateOptions)

/-- A `*mongo.Cursor`. `cursor.All(ctx, &results)` decodes every document into the element
type of `results`; the decoding is the driver's, so the cursor carries what `All` gives for
each of the two element types this package decodes into. -/
structure Cursor where
  AllMetric : Except GoError (List Metric)
  AllMetricAverage : Except GoError (List MetricAverage)

/-- The `(cursor, err)` pair `Find` and `Aggregate` return. -/
inductive Reply where
  | failed (err : GoError)
  | cursor (c : Cursor)

/-- Go `MongoStorage`; `client` is the server as seen through the driver. -/
structure MongoStorage where
  client : StoreCall → Reply
  database : String
  collection : String

/-- The calls an operation issued to the store, and what it did. -/
structure Traced (α : Type) where
  calls : List StoreCall
  outcome : Outcome α

/-! ## mongo.go -/

/-- Go `getSeriesByFrequency`. -/
def getSeriesByFrequency (m : MongoStorage) (config : Query) : Traced (List Metric) :=
  let matchStage := Bson.D [("$match", Bson.D [
    ("timestamp", Bson.M [("$lte", Bson.time config.EndAt), ("$gte", Bson.time config.StartAt)])])]
  let frequency : String :=
    if config.Frequency = FrequencyBySeconds ∨ config.Frequency = FrequencyByMinutes
        ∨ config.Frequency = FrequencyNone then "minute"
    else if config.Frequency = FrequencyByHours then "hour"
    else if config.Frequency = FrequencyByDays then "day"
    else if config.Frequency = FrequencyByMonths then "month"
    else if config.Frequency = FrequencyByYears then "year"
    else ""
  let groupStage : Bson :=
    if config.MetricType = MetricTypeConcurrency then
      Bson.D [("$group",
        Bson.D [("_id", Bson.D [
          ("frequency", Bson.D [
            ("$dateTrunc", Bson.M [("date", Bson.str "$timestamp"), ("unit", Bson.str frequency)])])]),
          ("concurrency", Bson.D [("$avg", Bson.str "$concurrency")])])]
    else if config.MetricType = MetricTypeCPULoad then
      Bson.D [("$group",
        Bson.D [("_id", Bson.D [
          ("frequency", Bson.D [
            ("$dateTrunc", Bson.M [("date", Bson.str "$timestamp"), ("unit", Bson.str frequency)])])]),
          ("cpu_load", Bson.D [("$avg", Bson.str "$cpu_load")])])]
    else
      Bson.D [("$group",
        Bson.D [("_id", Bson.D [
          ("frequency", Bson.D [
            ("$dateTrunc", Bson.M [("date", Bson.str "$timestamp"), ("unit", Bson.str frequency)])])]),
          ("cpu_load", Bson.D [("$avg", Bson.str "$cpu_load")]),
          ("concurrency", Bson.D [("$avg", Bson.str "$concurrency")])])]
  let projectionStage := Bson.D [("$project", Bson.D [
    ("timestamp", Bson.str "$_id.frequency"),
    ("cpu_load", Bson.str "$cpu_load"),
    ("concurrency", Bson.str "$concurrency")])]
  let opts := AggregateOptions.Aggregate.SetMaxTime (2 * Second)
  let pipeline := [matchStage, groupStage, projectionStage]
  let call := StoreCall.Aggregate m.database m.collection pipeline opts
  ⟨[call],
    match m.client call with
    | Reply.failed GoError.ErrNoDocuments => Outcome.returned [] none
    | Reply.failed err =>
        Outcome.returned []
          (some (GoError.wrapped ("error while retrieving data: " ++ err.Error) err))
    | Reply.cursor c =>
        match c.AllMetric with
        | Except.error err => Outcome.returned [] (some err)
        | Except.ok results => Outcome.returned results none⟩

/-- Go `MongoStorage.GetSeries`. -/
def GetSeries (m : MongoStorage) (config : Query) : Traced (List Metric) :=
  if config.Frequency ≠ FrequencyNone ∧ config.Frequency ≠ FrequencyByMinutes then
    getSeriesByFrequency m config
  else
    let filter := Bson.D [
      ("timestamp", Bson.M [("$lte", Bson.time config.EndAt), ("$gte", Bson.time config.StartAt)])]
    let findOptions := FindOptions.Find
    let findOptions := findOptions.SetSort (Bson.D [("timestamp", Bson.int 1)])
    let findOptions :=
      if config.MetricType = MetricTypeConcurrency then
        findOptions.SetProjection (Bson.D [("cpu_load", Bson.int 0)])
      else if config.MetricType = MetricTypeCPULoad then
        findOptions.SetProjection (Bson.D [("concurrency", Bson.int 0)])
      else findOptions
    let call := StoreCall.Find m.database m.collection filter findOptions
    ⟨[call],
      match m.client call with
      | Reply.failed GoError.ErrNoDocuments => Outcome.returned [] none
      | Reply.failed err =>
          Outcome.returned []
            (some (GoError.wrapped ("error while retrieving data: " ++ err.Error) err))
      | Reply.cursor c =>
          match c.AllMetric with
          | Except.error err => Outcome.returned [] (some err)
          | Except.ok results => Outcome.returned results none⟩

/-- Go `MongoStorage.GetAverage`; a nil `*model.MetricAverage` is `none`. -/
def GetAverage (m : MongoStorage) (config : Query) : Traced (Option MetricAverage) :=
  let matchStage := Bson.D [("$match", Bson.D [
    ("timestamp", Bson.M [("$lte", Bson.time config.EndAt), ("$gte", Bson.time config.StartAt)])])]
  let groupStage : Bson :=
    if config.MetricType = MetricTypeConcurrency then
      Bson.D [("$group", Bson.D [("_id", Bson.str ""),
        ("concurrency", Bson.D [("$avg", Bson.str "$concurrency")])])]
    else if config.MetricType = MetricTypeCPULoad then
      Bson.D [("$group", Bson.D [("_id", Bson.str ""),
        ("cpu_load", Bson.D [("$avg", Bson.str "$cpu_load")])])]
    else
      Bson.D [("$group", Bson.D [("_id", Bson.str ""),
        ("cpu_load", Bson.D [("$avg", Bson.str "$cpu_load")]),
        ("concurrency", Bson.D [("$avg", Bson.str "$concurrency")])])]
  let opts := AggregateOptions.Aggregate.SetMaxTime (2 * Second)
  let pipeline := [matchStage, groupStage]
  let call := StoreCall.Aggregate m.database m.collection pipeline opts
  ⟨[call],
    match m.client call with
    | Reply.failed GoError.ErrNoDocuments => Outcome.returned none none
    | Reply.failed err =>
        Outcome.returned none
          (some (GoError.wrapped ("error while retrieving data: " ++ err.Error) err))
    | Reply.cursor c =>
        match c.AllMetricAverage with
        | Except.error err => Outcome.returned none (some err)
        | Except.ok results =>
            if results.length > 1 then
              Outcome.returned none (some (GoError.errorf "only one aggregation is expected"))
            else
              match results with
              | [] => Outcome.panicked "runtime error: index out of range [0] with length 0"
              | res :: _ =>
                  let res := { res with StartTime := config.StartAt }
                  let res := { res with EndTime := config.EndAt }
                  Outcome.returned (some res) none⟩

/-! ## The server's `find`, for the requests `GetSeries` issues

The server is not part of the repository. The definitions below give the documented
meaning of the three parts of a `find` request that `GetSeries` uses: a filter of
comparisons on `timestamp`, a sort on `timestamp`, and an exclusion projection. A
request of any other shape has no meaning here (`none`). -/

/-- A comparison `{op: bound}` of a filter, evaluated at the field value `t`. -/
def compareHolds (t : Time) (op : String) (bound : Bson) : Option Bool :=
  match bound with
  | Bson.time u =>
      if op = "$lte" then some (decide (t ≤ u))
      else if op = "$gte" then some (decide (u ≤ t))
      else none
  | _ => none

/-- All comparisons of a condition document hold at `t`. -/
def condsHold (t : Time) : List (String × Bson) → Option Bool
  | [] => some true
  | (op, bound) :: rest =>
      match compareHolds t op bound, condsHold t rest with
      | some a, some b => some (a && b)
      | _, _ => none

/-- The filter `{timestamp: {op: bound, ...}}` evaluated at a stored sample. -/
def filterHolds (filter : Bson) (x : Metric) : Option Bool :=
  match filter with
  | Bson.D [(field, Bson.M conds)] =>
      if field = "timestamp" then condsHold x.Timestamp conds else none
  | _ => none

/-- The stored samples a filter selects, in stored order. -/
def selectRows (filter : Bson) : List Metric → Option (List Metric)
  | [] => some []
  | x :: xs =>
      match filterHolds filter x, selectRows filter xs with
      | some true, some rest => some (x :: rest)
      | some false, some rest => some rest
      | _, _ => none

/-- The sort `{timestamp: 1}` (oldest first); no sort keeps the stored order. -/
def sortRows (sort : Option Bson) (rows : List Metric) : Option (List Metric) :=
  match sort with
  | none => some rows
  | some (Bson.D [(field, Bson.int dir)]) =>
      if field = "timestamp" ∧ dir = 1 then
        some (rows.insertionSort (fun a b => a.Timestamp ≤ b.Timestamp))
      else none
  | some _ => none

/-- One exclusion `{field: 0}` of a projection: the field is left out of the returned
document, so it decodes to the zero value. -/
def excludeField (field : String) (x : Metric) : Option Metric :=
  if field = "cpu_load" then some { x with CPULoad := ⟨0⟩ }
  else if field = "concurrency" then some { x with Concurrency := 0 }
  else none

/-- An exclusion projection applied to a sample; no projection returns it whole. -/
def projectRow (projection : Option Bson) (x : Metric) : Option Metric :=
  match projection with
  | none => some x
  | some (Bson.D [(field, Bson.int flag)]) =>
      if flag = 0 then excludeField field x else none
  | some _ => none

/-- The projection applied to every row, in order. -/
def projectRows (projection : Option Bson) : List Metric → Option (List Metric)
  | [] => some []
  | x :: xs =>
      match projectRow projection x, projectRows projection xs with
      | some y, some ys => some (y :: ys)
      | _, _ => none

/-- The rows `find(filter).sort(..).project(..)` returns over the stored samples. -/
def mongoFind (stored : List Metric) (filter : Bson) (opts : FindOptions) :
    Option (List Metric) :=
  match selectRows filter stored with
  | none => none
  | some selected =>
      match sortRows opts.SortSpec selected with
      | none => none
      | some sorted => projectRows opts.Projection sorted

/-- The storage answers every `find` it can with the rows `mongoFind` gives over `stored`. -/
def ServesFind (m : MongoStorage) (stored : List Metric) : Prop :=
  ∀ database collection filter opts rows,
    mongoFind stored filter opts = some rows →
      ∃ c, m.client (StoreCall.Find database collection filter opts) = Reply.cursor c
        ∧ c.AllMetric = Except.ok rows

/-- A storage over the samples `stored` that answers `find` as `mongoFind` does; it is not
asked to aggregate. -/
def findOnlyStorage (stored : List Metric) : MongoStorage where
  client := fun call =>
    match call with
    | StoreCall.Find _ _ filter opts =>
        match mongoFind stored filter opts with
        | some rows => Reply.cursor ⟨Except.ok rows, Except.error (GoError.other "cannot decode")⟩
        | none => Reply.failed (GoError.other "bad request")
    | StoreCall.Aggregate _ _ _ _ => Reply.failed (GoError.other "not served")
  database := "sky"
  collection := "metrics"

/-! ## handler.go: the query filter builder -/

/-- Go `url.Values`: a key with the values given for it, in order of appearance. -/
abbrev Values := List (String × List String)

/-- Go `url.Values.Get`: the first value of the key, `""` when there is none. -/
def Values.Get (v : Values) (key : String) : String :=
  match v.lookup key with
  | some (x :: _) => x
  | _ => ""

/-- The parts of an `*http.Request` the handlers read: the parsed query string
(`r.URL.Query()`) and the route variables (`mux.Vars(r)`). -/
structure Request where
  Query : Values
  Vars : List (String × String)

/-- Go map indexing `vars[key]` on a `map[string]string`: `""` for a missing key. -/
def Request.Var (r : Request) (key : String) : String :=
  (r.Vars.lookup key).getD ""

/-- The JSON documents the handlers marshal, as values rather than bytes. -/
inductive Json where
  | null
  | str (s : String)
  | int (i : Int)
  | float (f : Float64)
  | arr (items : List Json)
  | obj (fields : List (String × Json))

/-- An `http.ResponseWriter`: the header map, the status code once written, and the bodies
written so far. -/
structure ResponseWriter where
  Header : List (String × String)
  Code : Option Int
  Body : List Json

namespace ResponseWriter

/-- Go `w.Header().Set(key, value)`. -/
def HeaderSet (w : ResponseWriter) (key value : String) : ResponseWriter :=
  { w with Header := (key, value) :: w.Header.filter (fun kv => kv.1 ≠ key) }

/-- Go `w.WriteHeader(code)`: only the first call sets the status. -/
def WriteHeader (w : ResponseWriter) (code : Int) : ResponseWriter :=
  match w.Code with
  | none => { w with Code := some code }
  | some _ => w

/-- Go `w.Write(body)`: writes status 200 first when none was written. -/
def Write (w : ResponseWriter) (body : Json) : ResponseWriter :=
  let w := w.WriteHeader 200
  { w with Body := w.Body ++ [body] }

end ResponseWriter

def StatusOK : Int := 200
def StatusBadRequest : Int := 400
def StatusNotFound : Int := 404
def StatusInternalServerError : Int := 500

/-- Go `writeError`. -/
def writeError (w : ResponseWriter) (message : String) (httpStatusCode : Int) : ResponseWriter :=
  let w := w.HeaderSet "Content-Type" "application/json"
  let w := w.WriteHeader httpStatusCode
  let resp := [("message", Json.str message)]
  let jsonResp := Json.obj resp
  w.Write jsonResp

/-- The two ways `strconv.Atoi` fails. -/
inductive NumError where
  | ErrSyntax
  | ErrRange
deriving DecidableEq, Repr

/-- The decimal digits of `strconv.ParseUint(s, 10, 64)`, folded left to right from `n`;
`none` at the first byte that is not `0`..`9`. -/
def parseDigits : List Char → Nat → Option Nat
  | [], n => some n
  | c :: cs, n =>
      if '0' ≤ c ∧ c ≤ '9' then parseDigits cs (n * 10 + (c.toNat - '0'.toNat)) else none

/-- Go `strconv.Atoi` where `int` has 64 bits: an optional sign, then one or more decimal
digits, and the value must lie in `[-2^63, 2^63 - 1]`. -/
def Atoi (s : String) : Except NumError Int :=
  let s0 := s.data
  let neg := s0.head? = some '-'
  let digits := if s0.head? = some '-' ∨ s0.head? = some '+' then s0.tail else s0
  if digits = [] then Except.error NumError.ErrSyntax
  else
    match parseDigits digits 0 with
    | none => Except.error NumError.ErrSyntax
    | some un =>
        if ¬ neg ∧ un ≥ 2 ^ 63 then Except.error NumError.ErrRange
        else if neg ∧ un > 2 ^ 63 then Except.error NumError.ErrRange
        else Except.ok (if neg then - (un : Int) else (un : Int))

/-- Go `buildQueryFilter`: the writer after the call, and the `*model.Query` returned
(`none` for nil). -/
def buildQueryFilter (w : ResponseWriter) (r : Request) : ResponseWriter × Option Query :=
  let query := r.Query
  let start := query.Get "start"
  let end_ := query.Get "end"
  if start = "" ∨ end_ = "" then
    (writeError w "timerange wasn't specified" StatusBadRequest, none)
  else
    match Atoi start with
    | Except.error _ =>
        (writeError w
          ("start timestamp is not valid; expected to be epoch format, but received " ++ start)
          StatusBadRequest, none)
    | Except.ok startInt =>
    match Atoi end_ with
    | Except.error _ =>
        (writeError w
          ("end timestamp is not valid; expected to be epoch format, but received " ++ end_)
          StatusBadRequest, none)
    | Except.ok endInt =>
    let frequency? : Option Frequency :=
      if query.Get "frequency" = "seconds" then some FrequencyBySeconds
      else if query.Get "frequency" = "minutes" then some FrequencyByMinutes
      else if query.Get "frequency" = "hours" then some FrequencyByHours
      else if query.Get "frequency" = "days" then some FrequencyByDays
      else if query.Get "frequency" = "months" then some FrequencyByMonths
      else if query.Get "frequency" = "years" then some FrequencyByYears
      else if query.Get "frequency" = "" then some FrequencyNone
      else none
    match frequency? with
    | none =>
        (writeError w ("frequency value is not valid; received " ++ query.Get "frequency")
          StatusBadRequest, none)
    | some frequency =>
    let mType? : Option MetricType :=
      if r.Var "type" = "cpu_load" then some MetricTypeCPULoad
      else if r.Var "type" = "concurrency" then some MetricTypeConcurrency
      else if r.Var "type" = "" then some MetricTypeNone
      else none
    match mType? with
    | none =>
        (writeError w ("metric type is not valid; received " ++ r.Var "type")
          StatusBadRequest, none)
    | some mType =>
        (w, some { StartAt := Time.Unix startInt 0
                   EndAt := Time.Unix endInt 0
                   MetricType := mType
                   Frequency := frequency })

/-! ## handler.go: the two request handlers -/

/-- What the handlers take from the standard library that depends on more than the values
modelled here: the text of a `time.Time` (it depends on the time's location) through
`time.Time.MarshalJSON`, which fails for a year outside `[0, 9999]`, and through the `%v`
rendering of a `model.Query`. -/
structure Runtime where
  TimeMarshalJSON : Time → Except GoError String
  SprintQuery : Query → String

namespace Float64

/-- Go `math.IsNaN(f) || math.IsInf(f, 0)`: the eleven exponent bits are all set. -/
def isNaNOrInf (f : Float64) : Bool :=
  decide ((f.bits / 2 ^ 52) % 2 ^ 11 = 2047)

/-- Go `f == 0`: positive or negative zero. -/
def isZero (f : Float64) : Bool :=
  decide (f.bits % 2 ^ 63 = 0)

/-- Go `strconv.FormatFloat(f, 'g', -1, 64)` on a value that is NaN or infinite. -/
def formatNaNOrInf (f : Float64) : String :=
  if f.bits % 2 ^ 52 ≠ 0 then "NaN"
  else if (f.bits / 2 ^ 63) % 2 = 1 then "-Inf"
  else "+Inf"

end Float64

/-- The encoding of a `time.Time` field by `encoding/json`: the text `MarshalJSON` gives,
or the error it returns wrapped as a `*json.MarshalerError`. -/
def marshalTime (rt : Runtime) (t : Time) : Except GoError Json :=
  match rt.TimeMarshalJSON t with
  | Except.error err =>
      Except.error (GoError.wrapped
        ("json: error calling MarshalJSON for type time.Time: " ++ err.Error) err)
  | Except.ok text => Except.ok (Json.str text)

/-- The encoding of a `float64` field tagged `omitempty` by `encoding/json`: left out when
zero, an `UnsupportedValueError` when NaN or infinite. -/
def marshalFloatOmitEmpty (name : String) (f : Float64) :
    Except GoError (List (String × Json)) :=
  if f.isZero then Except.ok []
  else if f.isNaNOrInf then
    Except.error (GoError.other ("json: unsupported value: " ++ f.formatNaNOrInf))
  else Except.ok [(name, Json.float f)]

/-- Go `json.Marshal` on one `model.Metric`: the fields in declaration order, `cpu_load`
and `concurrency` left out when zero. -/
def marshalMetric (rt : Runtime) (x : Metric) : Except GoError Json :=
  match marshalTime rt x.Timestamp with
  | Except.error err => Except.error err
  | Except.ok timestamp =>
      match marshalFloatOmitEmpty "cpu_load" x.CPULoad with
      | Except.error err => Except.error err
      | Except.ok cpuLoad =>
          Except.ok (Json.obj ([("timestamp", timestamp)] ++ cpuLoad
            ++ (if x.Concurrency = 0 then [] else [("concurrency", Json.int x.Concurrency)])))

/-- The elements of a slice of `model.Metric` encoded in order; the first error ends it. -/
def marshalMetrics (rt : Runtime) : List Metric → Except GoError (List Json)
  | [] => Except.ok []
  | x :: xs =>
      match marshalMetric rt x with
      | Except.error err => Except.error err
      | Except.ok item =>
          match marshalMetrics rt xs with
          | Except.error err => Except.error err
          | Except.ok items => Except.ok (item :: items)

/-- Go `json.Marshal(series)` on a `[]model.Metric` (the handler marshals it only when it
is not empty). -/
def MarshalSeries (rt : Runtime) (series : List Metric) : Except GoError Json :=
  match marshalMetrics rt series with
  | Except.error err => Except.error err
  | Except.ok items => Except.ok (Json.arr items)

/-- Go `json.Marshal(data)` on a non-nil `*model.MetricAverage`. -/
def MarshalAverage (rt : Runtime) (data : MetricAverage) : Except GoError Json :=
  match marshalTime rt data.StartTime with
  | Except.error err => Except.error err
  | Except.ok start =>
      match marshalTime rt data.EndTime with
      | Except.error err => Except.error err
      | Except.ok end_ =>
          match marshalFloatOmitEmpty "cpu_load" data.CPULoad with
          | Except.error err => Except.error err
          | Except.ok cpuLoad =>
              match marshalFloatOmitEmpty "concurrency" data.Concurrency with
              | Except.error err => Except.error err
              | Except.ok concurrency =>
                  Except.ok (Json.obj ([("start", start), ("end", end_)] ++ cpuLoad
                    ++ concurrency))

/-- Go `Store`, the interface the handlers call. -/
structure Store where
  GetSeries : Query → Outcome (List Metric)
  GetAverage : Query → Outcome (Option MetricAverage)

/-- Go `Handler`. -/
structure Handler where
  store : Store

/-- A method of the store invoked by a handler, with the filter passed. -/
inductive StoreMethod where
  | GetSeries (filter : Query)
  | GetAverage (filter : Query)
deriving DecidableEq, Repr

/-- How a handler call ends: it returns, leaving the writer as given, or a panic of the
store passes through it. -/
inductive Handled where
  | returned (w : ResponseWriter)
  | panicked (msg : String)

/-- The store methods a handler invoked, and how it ended. -/
structure Served where
  calls : List StoreMethod
  result : Handled

/-- Go `Handler.GetTimeline`. -/
def Handler.GetTimeline (rt : Runtime) (h : Handler) (w : ResponseWriter) (r : Request) :
    Served :=
  match buildQueryFilter w r with
  | (w, none) => ⟨[], Handled.returned w⟩
  | (w, some filter) =>
      ⟨[StoreMethod.GetSeries filter],
        match h.store.GetSeries filter with
        | Outcome.panicked msg => Handled.panicked msg
        | Outcome.returned _ (some err) =>
            Handled.returned (writeError w err.Error StatusInternalServerError)
        | Outcome.returned series none =>
            if series.length = 0 then
              Handled.returned (writeError w
                ("data for specified filter does not exist; filter: " ++ rt.SprintQuery filter)
                StatusNotFound)
            else
              match MarshalSeries rt series with
              | Except.error err =>
                  Handled.returned (writeError w err.Error StatusInternalServerError)
              | Except.ok jsonResp =>
                  let w := w.HeaderSet "Content-Type" "application/json"
                  let w := w.WriteHeader StatusOK
                  Handled.returned (w.Write jsonResp)⟩

/-- Go `Handler.GetAverage`. -/
def Handler.GetAverage (rt : Runtime) (h : Handler) (w : ResponseWriter) (r : Request) :
    Served :=
  match buildQueryFilter w r with
  | (w, none) => ⟨[], Handled.returned w⟩
  | (w, some filter) =>
      ⟨[StoreMethod.GetAverage filter],
        match h.store.GetAverage filter with
        | Outcome.panicked msg => Handled.panicked msg
        | Outcome.returned _ (some err) =>
            Handled.returned (writeError w err.Error StatusInternalServerError)
        | Outcome.returned none none =>
            Handled.returned (writeError w
              ("data for specified filter does not exist; filter: " ++ rt.SprintQuery filter)
              StatusNotFound)
        | Outcome.returned (some data) none =>
            match MarshalAverage rt data with
            | Except.error err =>
                Handled.returned (writeError w err.Error StatusInternalServerError)
            | Except.ok jsonResp =>
                let w := w.HeaderSet "Content-Type" "application/json"
                let w := w.WriteHeader StatusOK
                Handled.returned (w.Write jsonResp)⟩

/-! ## Storages, requests and queries used as concrete inputs -/

/-- A storage whose server answers every call with the cursor `c`. -/
def cursorStorage (c : Cursor) : MongoStorage where
  client := fun _ => Reply.cursor c
  database := "sky"
  collection := "metrics"

/-- A cursor over the given aggregate rows. -/
def averageCursor (rows : List MetricAverage) : Cursor where
  AllMetric := Except.error (GoError.other "cannot decode")
  AllMetricAverage := Except.ok rows

/-- A cursor over the given series rows. -/
def seriesCursor (rows : List Metric) : Cursor where
  AllMetric := Except.ok rows
  AllMetricAverage := Except.error (GoError.other "cannot decode")

/-- The call is a `Find`. -/
def StoreCall.isFind : StoreCall → Bool
  | StoreCall.Find _ _ _ _ => true
  | StoreCall.Aggregate _ _ _ _ => false

/-- The call is an `Aggregate`. -/
def StoreCall.isAggregate : StoreCall → Bool
  | StoreCall.Find _ _ _ _ => false
  | StoreCall.Aggregate _ _ _ _ => true

/-- Two aggregate rows and a query, used to exercise `GetAverage`. -/
def avgRowA : MetricAverage := ⟨⟨0, 0⟩, ⟨0, 0⟩, ⟨4631530004285489152⟩, ⟨0⟩⟩

def avgRowB : MetricAverage := ⟨⟨7, 0⟩, ⟨9, 0⟩, ⟨0⟩, ⟨4645040803167600640⟩⟩

def rangeQuery : Query := ⟨⟨1700000000, 0⟩, ⟨1700003600, 0⟩, MetricTypeNone, FrequencyNone⟩

/-- A query for the frequency `Seconds`. -/
def secondsQuery : Query :=
  ⟨⟨1700000000, 0⟩, ⟨1700003600, 0⟩, MetricTypeCPULoad, FrequencyBySeconds⟩

/-- A query for hourly buckets. -/
def hoursQuery : Query :=
  ⟨⟨1700000000, 0⟩, ⟨1700007200, 0⟩, MetricTypeConcurrency, FrequencyByHours⟩

/-- Two hourly buckets, the later one first. -/
def bucketLate : Metric := ⟨⟨1700006400, 0⟩, ⟨0⟩, 12⟩

def bucketEarly : Metric := ⟨⟨1700002800, 0⟩, ⟨0⟩, 30⟩

/-- The `$`-operator naming each stage of the pipeline of an `Aggregate` call; a `Find`
call has no stages. -/
def StoreCall.stages : StoreCall → List String
  | StoreCall.Find _ _ _ _ => []
  | StoreCall.Aggregate _ _ pipeline _ =>
      pipeline.map fun stage =>
        match stage with
        | Bson.D ((name, _) :: _) => name
        | _ => ""

/-- Five samples, one per minute, newest first (as the test inserts them). -/
def fiveSamples : List Metric :=
  [⟨⟨1700000360, 0⟩, ⟨4631530004285489152⟩, 365984⟩,
   ⟨⟨1700000300, 0⟩, ⟨4636737291354636288⟩, 365984⟩,
   ⟨⟨1700000240, 0⟩, ⟨4635048441494372352⟩, 965945⟩,
   ⟨⟨1700000180, 0⟩, ⟨4631530004285489152⟩, 12⟩,
   ⟨⟨1700000120, 0⟩, ⟨4645040803167600640⟩, 499999⟩]

/-- The query of the test: the six minutes up to the newest sample, `cpu_load`, by minutes. -/
def minutesQuery : Query :=
  ⟨⟨1700000000, 0⟩, ⟨1700000360, 0⟩, MetricTypeCPULoad, FrequencyByMinutes⟩

/-- A fresh writer: nothing set, nothing written. -/
def freshWriter : ResponseWriter := ⟨[], none, []⟩

/-- A request whose range runs backwards: `start` is an hour after `end`. -/
def backwardsRequest : Request where
  Query := [("start", ["1700003600"]), ("end", ["1700000000"]), ("frequency", ["hours"])]
  Vars := [("type", "cpu_load")]

/-- A request with no `end`, one whose `start` is not a number, one whose `end` is out of
the range of a 64-bit integer. -/
def noEndRequest : Request where
  Query := [("start", ["1700000000"]), ("frequency", ["weeks"])]
  Vars := [("type", "disk")]

def badStartRequest : Request where
  Query := [("start", ["yesterday"]), ("end", ["1700000000"])]
  Vars := [("type", "cpu_load")]

def badEndRequest : Request where
  Query := [("start", ["1700000000"]), ("end", ["9223372036854775808"])]
  Vars := [("type", "cpu_load")]

/-- A request with the frequency `weeks`. -/
def weeksRequest : Request where
  Query := [("start", ["1700000000"]), ("end", ["1700003600"]), ("frequency", ["weeks"])]
  Vars := [("type", "cpu_load")]

/-- A request with the metric type `disk`. -/
def diskRequest : Request where
  Query := [("start", ["1700000000"]), ("end", ["1700003600"]), ("frequency", ["days"])]
  Vars := [("type", "disk")]

/-- The request of the handler test: `/metrics/cpu_load?start=..&end=..&frequency=minutes`. -/
def timelineRequest : Request where
  Query := [("start", ["1699999940"]), ("end", ["1700000000"]), ("frequency", ["minutes"])]
  Vars := [("type", "cpu_load")]

/-- A runtime for the concrete inputs: a time marshals when its year, taken in UTC, lies in
`[0, 9999]`, and is written by its epoch seconds. -/
def sampleRuntime : Runtime where
  TimeMarshalJSON := fun t =>
    if -62167219200 ≤ t.sec ∧ t.sec < 253402300800 then Except.ok (toString t.sec)
    else Except.error (GoError.other "Time.MarshalJSON: year outside of range [0,9999]")
  SprintQuery := fun q =>
    "\x7b" ++ toString q.StartAt.sec ++ " " ++ toString q.EndAt.sec ++ " "
      ++ toString q.MetricType ++ " " ++ toString q.Frequency ++ "\x7d"

/-- The mock store of the handler test: `GetSeries` returns the given series and no error,
`GetAverage` returns nil and no error. -/
def mockStore (series : List Metric) : Store where
  GetSeries := fun _ => Outcome.returned series none
  GetAverage := fun _ => Outcome.returned none none

/-- A store that fails every call with the given error. -/
def failingStore (err : GoError) : Store where
  GetSeries := fun _ => Outcome.returned [] (some err)
  GetAverage := fun _ => Outcome.returned none (some err)

/-- The three samples of the handler test (`cpu_load` 48, 48, 76). -/
def threeSamples : List Metric :=
  [⟨⟨1700000000, 0⟩, ⟨4631952216750555136⟩, 365984⟩,
   ⟨⟨1699999940, 0⟩, ⟨4631952216750555136⟩, 365984⟩,
   ⟨⟨1699999880, 0⟩, ⟨4635048441494372352⟩, 965945⟩]

/-- A series of one sample whose `cpu_load` is NaN (bit pattern `0x7FF8000000000000`). -/
def nanSeries : List Metric :=
  [⟨⟨1700000000, 0⟩, ⟨9221120237041090560⟩, 365984⟩]

/-- Ordering samples by timestamp is total and transitive (used to sort them). -/
instance : IsTotal Metric (fun a b => a.Timestamp ≤ b.Timestamp) :=
  ⟨fun a b => by
    show Time.le a.Timestamp b.Timestamp ∨ Time.le b.Timestamp a.Timestamp
    unfold Time.le; omega⟩

instance : IsTrans Metric (fun a b => a.Timestamp ≤ b.Timestamp) :=
  ⟨fun a b c => by
    show Time.le a.Timestamp b.Timestamp → Time.le b.Timestamp c.Timestamp →
      Time.le a.Timestamp c.Timestamp
    unfold Time.le; omega⟩

/-! ## Theorems: `MongoStorage.GetAverage` -/

/-- C1 (the code at the failing input): when the aggregation succeeds and its cursor holds
zero rows, `GetAverage` does not return the absent result: for every query it panics on
`results[0]`. -/
theorem GetAverage_zero_rows_panics (q : Query) :
    (GetAverage (cursorStorage (averageCursor [])) q).outcome
      = Outcome.panicked "runtime error: index out of range [0] with length 0" := by
  rfl

/-- C2: when the store's aggregation yields two or more rows, `GetAverage` returns no
record and the error "only one aggregation is expected". -/
theorem GetAverage_many_rows_error (m : MongoStorage) (q : Query) (c : Cursor)
    (results : List MetricAverage)
    (hreply : ∀ call ∈ (GetAverage m q).calls, m.client call = Reply.cursor c)
    (hrows : c.AllMetricAverage = Except.ok results)
    (hmany : 2 ≤ results.length) :
    (GetAverage m q).outcome
      = Outcome.returned none (some (GoError.errorf "only one aggregation is expected"))
    ∧ (GoError.errorf "only one aggregation is expected").Error
      = "only one aggregation is expected" := by
  have h1 := hreply _ (List.mem_singleton_self _)
  have hlen : results.length > 1 := hmany
  refine ⟨?_, rfl⟩
  simp only [GetAverage, h1, hrows, hlen, if_true]

/-- C3: when the store's aggregation yields the single row `r`, `GetAverage` succeeds and
returns `r` with `StartTime` and `EndTime` replaced by the query's bounds and both
averages as the store produced them. -/
theorem GetAverage_single_row (m : MongoStorage) (q : Query) (c : Cursor) (r : MetricAverage)
    (hreply : ∀ call ∈ (GetAverage m q).calls, m.client call = Reply.cursor c)
    (hrow : c.AllMetricAverage = Except.ok [r]) :
    (GetAverage m q).outcome
      = Outcome.returned
          (some { StartTime := q.StartAt, EndTime := q.EndAt,
                  CPULoad := r.CPULoad, Concurrency := r.Concurrency }) none := by
  have h1 := hreply _ (List.mem_singleton_self _)
  simp [GetAverage, h1, hrow]

/-- C2 at a concrete input: a cursor holding the two rows `avgRowA`, `avgRowB`. -/
theorem GetAverage_many_rows_error_witness :
    2 ≤ [avgRowA, avgRowB].length
    ∧ (GetAverage (cursorStorage (averageCursor [avgRowA, avgRowB])) rangeQuery).outcome
        = Outcome.returned none (some (GoError.errorf "only one aggregation is expected"))
    ∧ (GoError.errorf "only one aggregation is expected").Error
        = "only one aggregation is expected" :=
  ⟨by decide,
    GetAverage_many_rows_error (cursorStorage (averageCursor [avgRowA, avgRowB])) rangeQuery
      (averageCursor [avgRowA, avgRowB]) [avgRowA, avgRowB] (fun _ _ => rfl) rfl (by decide)⟩

/-- C3 at a concrete input: the single row `avgRowB`, which carries bounds `7` and `9`. -/
theorem GetAverage_single_row_witness :
    (averageCursor [avgRowB]).AllMetricAverage = Except.ok [avgRowB]
    ∧ (GetAverage (cursorStorage (averageCursor [avgRowB])) rangeQuery).outcome
        = Outcome.returned
            (some { StartTime := ⟨1700000000, 0⟩, EndTime := ⟨1700003600, 0⟩,
                    CPULoad := ⟨0⟩, Concurrency := ⟨4645040803167600640⟩ }) none :=
  ⟨rfl,
    GetAverage_single_row (cursorStorage (averageCursor [avgRowB])) rangeQuery
      (averageCursor [avgRowB]) avgRowB (fun _ _ => rfl) rfl⟩

/-! ## Theorems: `MongoStorage.GetSeries`, choice of strategy -/

/-- C4 as stated fails: for a query of frequency `Seconds`, `GetSeries` does not take the
direct read; the one call it issues is a bucketed aggregation, truncating to the minute. -/
theorem GetSeries_seconds_is_bucketed :
    secondsQuery.Frequency = FrequencyBySeconds
    ∧ (GetSeries (cursorStorage (seriesCursor [])) secondsQuery).calls
        = [StoreCall.Aggregate "sky" "metrics"
            [Bson.D [("$match", Bson.D [("timestamp",
                Bson.M [("$lte", Bson.time ⟨1700003600, 0⟩),
                        ("$gte", Bson.time ⟨1700000000, 0⟩)])])],
             Bson.D [("$group", Bson.D [
                ("_id", Bson.D [("frequency", Bson.D [("$dateTrunc",
                  Bson.M [("date", Bson.str "$timestamp"), ("unit", Bson.str "minute")])])]),
                ("cpu_load", Bson.D [("$avg", Bson.str "$cpu_load")])])],
             Bson.D [("$project", Bson.D [
                ("timestamp", Bson.str "$_id.frequency"),
                ("cpu_load", Bson.str "$cpu_load"),
                ("concurrency", Bson.str "$concurrency")])]]
            ⟨some 2000000000⟩]
    ∧ ¬ (∀ call ∈ (GetSeries (cursorStorage (seriesCursor [])) secondsQuery).calls,
          call.isFind = true) := by
  refine ⟨rfl, rfl, ?_⟩
  intro h
  have h1 := h _ (List.mem_singleton_self _)
  exact absurd h1 (by decide)

/-- C4 as amended: `GetSeries` takes the direct range read exactly when the frequency is
`None` or `Minutes`; for every other frequency, `Seconds`, `Hours`, `Days`, `Months` and
`Years` among them, the one call it issues is a bucketed aggregation. -/
theorem GetSeries_strategy (m : MongoStorage) (q : Query) :
    ((∀ call ∈ (GetSeries m q).calls, call.isFind = true)
        ↔ (q.Frequency = FrequencyNone ∨ q.Frequency = FrequencyByMinutes))
    ∧ ((∀ call ∈ (GetSeries m q).calls, call.isAggregate = true)
        ↔ ¬ (q.Frequency = FrequencyNone ∨ q.Frequency = FrequencyByMinutes))
    ∧ (GetSeries m q).calls.length = 1
    ∧ (q.Frequency ∈ [FrequencyBySeconds, FrequencyByHours, FrequencyByDays,
          FrequencyByMonths, FrequencyByYears]
        → ∀ call ∈ (GetSeries m q).calls, call.isAggregate = true) := by
  by_cases h : q.Frequency = FrequencyNone ∨ q.Frequency = FrequencyByMinutes
  · have hg : ¬ (q.Frequency ≠ FrequencyNone ∧ q.Frequency ≠ FrequencyByMinutes) := by
      rintro ⟨h1, h2⟩
      rcases h with h | h
      · exact h1 h
      · exact h2 h
    have hne : q.Frequency ∉ [FrequencyBySeconds, FrequencyByHours, FrequencyByDays,
          FrequencyByMonths, FrequencyByYears] := by
      rcases h with h | h <;> rw [h] <;> decide
    simp [GetSeries, hg, h, hne, StoreCall.isFind, StoreCall.isAggregate]
  · have hg : q.Frequency ≠ FrequencyNone ∧ q.Frequency ≠ FrequencyByMinutes := by
      constructor
      · intro h1; exact h (Or.inl h1)
      · intro h2; exact h (Or.inr h2)
    simp [GetSeries, hg, h, getSeriesByFrequency, StoreCall.isFind, StoreCall.isAggregate]

/-! ## Theorems: `MongoStorage.GetSeries`, ordering -/

/-- C5 (the code at the failing input): for a query of frequency `Hours` the one call
`GetSeries` issues is an aggregation whose stages are `$match`, `$group`, `$project`, with
no `$sort` among them, and the rows come back in the order the server produced them: a
server that yields the later bucket first gets it returned first. -/
theorem GetSeries_bucketed_not_sorted :
    ((GetSeries (cursorStorage (seriesCursor [bucketLate, bucketEarly])) hoursQuery).calls.map
        StoreCall.stages = [["$match", "$group", "$project"]])
    ∧ (GetSeries (cursorStorage (seriesCursor [bucketLate, bucketEarly])) hoursQuery).outcome
        = Outcome.returned [bucketLate, bucketEarly] none
    ∧ ¬ (bucketLate.Timestamp ≤ bucketEarly.Timestamp) := by
  refine ⟨rfl, rfl, by decide⟩

/-! ## Theorems: `MongoStorage.GetSeries`, the direct range read -/

/-- The range filter of `GetSeries` selects the samples with `s ≤ timestamp ≤ e`. -/
theorem selectRows_range (s e : Time) (stored : List Metric) :
    selectRows (Bson.D [("timestamp", Bson.M [("$lte", Bson.time e), ("$gte", Bson.time s)])])
        stored
      = some (stored.filter fun x => decide (s ≤ x.Timestamp ∧ x.Timestamp ≤ e)) := by
  induction stored with
  | nil => rfl
  | cons x xs ih =>
      by_cases h1 : x.Timestamp ≤ e <;> by_cases h2 : s ≤ x.Timestamp <;>
        simp [selectRows, ih, filterHolds, condsHold, compareHolds, h1, h2]

/-- No projection returns the rows whole. -/
theorem projectRows_none (rows : List Metric) : projectRows none rows = some rows := by
  induction rows with
  | nil => rfl
  | cons x xs ih => simp [projectRows, ih, projectRow]

/-- The projection `{concurrency: 0}` leaves `Concurrency` at its zero value. -/
theorem projectRows_concurrency (rows : List Metric) :
    projectRows (some (Bson.D [("concurrency", Bson.int 0)])) rows
      = some (rows.map fun x => { x with Concurrency := 0 }) := by
  induction rows with
  | nil => rfl
  | cons x xs ih => simp [projectRows, ih, projectRow, excludeField]

/-- The projection `{cpu_load: 0}` leaves `CPULoad` at its zero value. -/
theorem projectRows_cpu_load (rows : List Metric) :
    projectRows (some (Bson.D [("cpu_load", Bson.int 0)])) rows
      = some (rows.map fun x => { x with CPULoad := ⟨0⟩ }) := by
  induction rows with
  | nil => rfl
  | cons x xs ih => simp [projectRows, ih, projectRow, excludeField]

/-- The rows of the direct read: the selected samples, oldest first, each projected. -/
theorem mongoFind_direct (stored : List Metric) (s e : Time) (projection : Option Bson)
    (f : Metric → Metric)
    (hproj : ∀ rows, projectRows projection rows = some (rows.map f)) :
    mongoFind stored
        (Bson.D [("timestamp", Bson.M [("$lte", Bson.time e), ("$gte", Bson.time s)])])
        ⟨some (Bson.D [("timestamp", Bson.int 1)]), projection⟩
      = some (((stored.filter fun x => decide (s ≤ x.Timestamp ∧ x.Timestamp ≤ e)).insertionSort
          (fun a b => a.Timestamp ≤ b.Timestamp)).map f) := by
  simp [mongoFind, selectRows_range, sortRows, hproj]

/-- What `GetSeries` returns when the server answers its `Find` with the rows `rows`. -/
theorem GetSeries_direct_outcome (m : MongoStorage) (q : Query) (projection : Option Bson)
    (rows : List Metric) (c : Cursor)
    (hfreq : q.Frequency = FrequencyNone ∨ q.Frequency = FrequencyByMinutes)
    (hcalls : (GetSeries m q).calls = [StoreCall.Find m.database m.collection
        (Bson.D [("timestamp",
          Bson.M [("$lte", Bson.time q.EndAt), ("$gte", Bson.time q.StartAt)])])
        ⟨some (Bson.D [("timestamp", Bson.int 1)]), projection⟩])
    (hreply : m.client (StoreCall.Find m.database m.collection
        (Bson.D [("timestamp",
          Bson.M [("$lte", Bson.time q.EndAt), ("$gte", Bson.time q.StartAt)])])
        ⟨some (Bson.D [("timestamp", Bson.int 1)]), projection⟩) = Reply.cursor c)
    (hrows : c.AllMetric = Except.ok rows) :
    (GetSeries m q).outcome = Outcome.returned rows none := by
  have hg : ¬ (q.Frequency ≠ FrequencyNone ∧ q.Frequency ≠ FrequencyByMinutes) := by
    rintro ⟨h1, h2⟩
    rcases hfreq with h | h
    · exact h1 h
    · exact h2 h
  simp only [GetSeries, if_neg hg] at hcalls ⊢
  have hcall := List.head_eq_of_cons_eq hcalls
  rw [hcall, hreply]
  simp only [hrows]

/-- C6: for a query of frequency `None` or `Minutes`, the one call `GetSeries` issues is a
`Find` with the filter `StartAt ≤ timestamp ≤ EndAt` (both ends inclusive), the ascending
sort on `timestamp`, and a projection that excludes `concurrency` for `CPULoad`, `cpu_load`
for `Concurrency` and nothing for `None`. Over a server holding the samples `stored` it
returns, without error, the samples in the range, oldest first, with the excluded field at
its zero value; when every stored sample lies in the range it returns as many rows as are
stored. -/
theorem GetSeries_direct_read (m : MongoStorage) (q : Query)
    (hfreq : q.Frequency = FrequencyNone ∨ q.Frequency = FrequencyByMinutes) :
    ∃ projection,
      (GetSeries m q).calls = [StoreCall.Find m.database m.collection
        (Bson.D [("timestamp",
          Bson.M [("$lte", Bson.time q.EndAt), ("$gte", Bson.time q.StartAt)])])
        ⟨some (Bson.D [("timestamp", Bson.int 1)]), projection⟩]
      ∧ (q.MetricType = MetricTypeCPULoad →
          projection = some (Bson.D [("concurrency", Bson.int 0)]))
      ∧ (q.MetricType = MetricTypeConcurrency →
          projection = some (Bson.D [("cpu_load", Bson.int 0)]))
      ∧ (q.MetricType = MetricTypeNone → projection = none)
      ∧ ∀ stored : List Metric, ServesFind m stored →
          ∃ rows, (GetSeries m q).outcome = Outcome.returned rows none
            ∧ rows.Pairwise (fun a b => a.Timestamp ≤ b.Timestamp)
            ∧ (q.MetricType = MetricTypeCPULoad →
                rows.Perm ((stored.filter fun x =>
                  decide (q.StartAt ≤ x.Timestamp ∧ x.Timestamp ≤ q.EndAt)).map
                    fun x => { x with Concurrency := 0 }))
            ∧ (q.MetricType = MetricTypeConcurrency →
                rows.Perm ((stored.filter fun x =>
                  decide (q.StartAt ≤ x.Timestamp ∧ x.Timestamp ≤ q.EndAt)).map
                    fun x => { x with CPULoad := ⟨0⟩ }))
            ∧ (q.MetricType = MetricTypeNone →
                rows.Perm (stored.filter fun x =>
                  decide (q.StartAt ≤ x.Timestamp ∧ x.Timestamp ≤ q.EndAt)))
            ∧ ((∀ x ∈ stored, q.StartAt ≤ x.Timestamp ∧ x.Timestamp ≤ q.EndAt) →
                rows.length = stored.length) := by
  have hg : ¬ (q.Frequency ≠ FrequencyNone ∧ q.Frequency ≠ FrequencyByMinutes) := by
    rintro ⟨h1, h2⟩
    rcases hfreq with h | h
    · exact h1 h
    · exact h2 h
  -- the projection chosen, and the function it computes on a row
  obtain ⟨projection, f, hcalls, hts, hproj, hC, hL, hN⟩ :
      ∃ (projection : Option Bson) (f : Metric → Metric),
        (GetSeries m q).calls = [StoreCall.Find m.database m.collection
          (Bson.D [("timestamp",
            Bson.M [("$lte", Bson.time q.EndAt), ("$gte", Bson.time q.StartAt)])])
          ⟨some (Bson.D [("timestamp", Bson.int 1)]), projection⟩]
        ∧ (∀ x, (f x).Timestamp = x.Timestamp)
        ∧ (∀ rows, projectRows projection rows = some (rows.map f))
        ∧ (q.MetricType = MetricTypeCPULoad →
            projection = some (Bson.D [("concurrency", Bson.int 0)])
              ∧ f = fun x => { x with Concurrency := 0 })
        ∧ (q.MetricType = MetricTypeConcurrency →
            projection = some (Bson.D [("cpu_load", Bson.int 0)])
              ∧ f = fun x => { x with CPULoad := ⟨0⟩ })
        ∧ (q.MetricType = MetricTypeNone → projection = none ∧ f = id) := by
    by_cases hc : q.MetricType = MetricTypeConcurrency
    · refine ⟨some (Bson.D [("cpu_load", Bson.int 0)]), fun x => { x with CPULoad := ⟨0⟩ },
        ?_, fun _ => rfl, projectRows_cpu_load, ?_, fun _ => ⟨rfl, rfl⟩, ?_⟩
      · simp [GetSeries, hg, hc, FindOptions.SetProjection, FindOptions.SetSort,
          FindOptions.Find]
      · intro h; rw [hc] at h; exact absurd h (by decide)
      · intro h; rw [hc] at h; exact absurd h (by decide)
    · by_cases hl : q.MetricType = MetricTypeCPULoad
      · refine ⟨some (Bson.D [("concurrency", Bson.int 0)]),
          fun x => { x with Concurrency := 0 },
          ?_, fun _ => rfl, projectRows_concurrency, fun _ => ⟨rfl, rfl⟩, ?_, ?_⟩
        · have hne : ¬ MetricTypeCPULoad = MetricTypeConcurrency := by decide
          simp [GetSeries, hg, hl, hne, FindOptions.SetProjection, FindOptions.SetSort,
            FindOptions.Find]
        · intro h; exact absurd h hc
        · intro h; rw [hl] at h; exact absurd h (by decide)
      · refine ⟨none, id, ?_, fun _ => rfl, ?_, ?_, ?_, fun _ => ⟨rfl, rfl⟩⟩
        · simp [GetSeries, hg, hc, hl, FindOptions.SetSort, FindOptions.Find]
        · intro rows; simpa using projectRows_none rows
        · intro h; exact absurd h hl
        · intro h; exact absurd h hc
  refine ⟨projection, hcalls, fun h => (hC h).1, fun h => (hL h).1, fun h => (hN h).1, ?_⟩
  intro stored hserve
  obtain ⟨c, hreply, hrows⟩ :=
    hserve m.database m.collection _ _ _ (mongoFind_direct stored q.StartAt q.EndAt projection f hproj)
  refine ⟨_, GetSeries_direct_outcome m q projection _ c hfreq hcalls hreply hrows, ?_, ?_, ?_, ?_, ?_⟩
  · rw [List.pairwise_map]
    have hsorted := List.sorted_insertionSort (fun a b : Metric => a.Timestamp ≤ b.Timestamp)
      (stored.filter fun x => decide (q.StartAt ≤ x.Timestamp ∧ x.Timestamp ≤ q.EndAt))
    refine List.Pairwise.imp ?_ hsorted
    intro a b hab
    rw [hts a, hts b]
    exact hab
  · intro h
    rw [(hC h).2]
    exact (List.perm_insertionSort _ _).map _
  · intro h
    rw [(hL h).2]
    exact (List.perm_insertionSort _ _).map _
  · intro h
    rw [(hN h).2, List.map_id]
    exact List.perm_insertionSort _ _
  · intro hall
    rw [List.length_map, List.length_insertionSort]
    congr 1
    apply List.filter_eq_self.mpr
    intro x hx
    exact decide_eq_true (hall x hx)

/-- The storage `findOnlyStorage stored` answers `find` over `stored`. -/
theorem findOnlyStorage_serves (stored : List Metric) :
    ServesFind (findOnlyStorage stored) stored := by
  intro database collection filter opts rows h
  exact ⟨⟨Except.ok rows, Except.error (GoError.other "cannot decode")⟩,
    by simp [findOnlyStorage, h], rfl⟩

/-- C6 at the input of the test: over the five samples the direct read returns five rows,
oldest first, with only `cpu_load` populated. -/
theorem GetSeries_direct_read_witness :
    (minutesQuery.Frequency = FrequencyNone ∨ minutesQuery.Frequency = FrequencyByMinutes)
    ∧ ServesFind (findOnlyStorage fiveSamples) fiveSamples
    ∧ (∀ x ∈ fiveSamples,
        minutesQuery.StartAt ≤ x.Timestamp ∧ x.Timestamp ≤ minutesQuery.EndAt)
    ∧ (GetSeries (findOnlyStorage fiveSamples) minutesQuery).outcome
        = Outcome.returned
            [⟨⟨1700000120, 0⟩, ⟨4645040803167600640⟩, 0⟩,
             ⟨⟨1700000180, 0⟩, ⟨4631530004285489152⟩, 0⟩,
             ⟨⟨1700000240, 0⟩, ⟨4635048441494372352⟩, 0⟩,
             ⟨⟨1700000300, 0⟩, ⟨4636737291354636288⟩, 0⟩,
             ⟨⟨1700000360, 0⟩, ⟨4631530004285489152⟩, 0⟩] none
    ∧ ∃ projection,
      (GetSeries (findOnlyStorage fiveSamples) minutesQuery).calls
        = [StoreCall.Find (findOnlyStorage fiveSamples).database
            (findOnlyStorage fiveSamples).collection
            (Bson.D [("timestamp",
              Bson.M [("$lte", Bson.time minutesQuery.EndAt),
                      ("$gte", Bson.time minutesQuery.StartAt)])])
            ⟨some (Bson.D [("timestamp", Bson.int 1)]), projection⟩]
      ∧ (minutesQuery.MetricType = MetricTypeCPULoad →
          projection = some (Bson.D [("concurrency", Bson.int 0)]))
      ∧ (minutesQuery.MetricType = MetricTypeConcurrency →
          projection = some (Bson.D [("cpu_load", Bson.int 0)]))
      ∧ (minutesQuery.MetricType = MetricTypeNone → projection = none)
      ∧ ∀ stored : List Metric, ServesFind (findOnlyStorage fiveSamples) stored →
          ∃ rows, (GetSeries (findOnlyStorage fiveSamples) minutesQuery).outcome
              = Outcome.returned rows none
            ∧ rows.Pairwise (fun a b => a.Timestamp ≤ b.Timestamp)
            ∧ (minutesQuery.MetricType = MetricTypeCPULoad →
                rows.Perm ((stored.filter fun x =>
                  decide (minutesQuery.StartAt ≤ x.Timestamp
                    ∧ x.Timestamp ≤ minutesQuery.EndAt)).map
                    fun x => { x with Concurrency := 0 }))
            ∧ (minutesQuery.MetricType = MetricTypeConcurrency →
                rows.Perm ((stored.filter fun x =>
                  decide (minutesQuery.StartAt ≤ x.Timestamp
                    ∧ x.Timestamp ≤ minutesQuery.EndAt)).map
                    fun x => { x with CPULoad := ⟨0⟩ }))
            ∧ (minutesQuery.MetricType = MetricTypeNone →
                rows.Perm (stored.filter fun x =>
                  decide (minutesQuery.StartAt ≤ x.Timestamp
                    ∧ x.Timestamp ≤ minutesQuery.EndAt)))
            ∧ ((∀ x ∈ stored,
                  minutesQuery.StartAt ≤ x.Timestamp ∧ x.Timestamp ≤ minutesQuery.EndAt) →
                rows.length = stored.length) :=
  ⟨by decide, findOnlyStorage_serves fiveSamples, by decide, rfl,
    GetSeries_direct_read (findOnlyStorage fiveSamples) minutesQuery (by decide)⟩

/-! ## Theorems: `getSeriesByFrequency`, the group stage -/

/-- C7: for a query of frequency `Hours`, `Days`, `Months` or `Years`, `GetSeries` is
`getSeriesByFrequency`, and the pipeline it issues has as its second stage a `$group` whose key truncates
`$timestamp` to the unit `hour`, `day`, `month`, `year` respectively, and whose
accumulators are the average of `cpu_load` alone for `CPULoad`, of `concurrency` alone for
`Concurrency`, and of both for `None`. -/
theorem getSeriesByFrequency_group_stage (m : MongoStorage) (q : Query) (unit : String)
    (hunit : (q.Frequency, unit) ∈ [(FrequencyByHours, "hour"), (FrequencyByDays, "day"),
        (FrequencyByMonths, "month"), (FrequencyByYears, "year")]) :
    GetSeries m q = getSeriesByFrequency m q
    ∧ ∃ averages,
      (getSeriesByFrequency m q).calls = [StoreCall.Aggregate m.database m.collection
        [Bson.D [("$match", Bson.D [("timestamp",
            Bson.M [("$lte", Bson.time q.EndAt), ("$gte", Bson.time q.StartAt)])])],
         Bson.D [("$group", Bson.D (
            ("_id", Bson.D [("frequency", Bson.D [("$dateTrunc",
              Bson.M [("date", Bson.str "$timestamp"), ("unit", Bson.str unit)])])])
            :: averages))],
         Bson.D [("$project", Bson.D [
            ("timestamp", Bson.str "$_id.frequency"),
            ("cpu_load", Bson.str "$cpu_load"),
            ("concurrency", Bson.str "$concurrency")])]]
        ⟨some (2 * Second)⟩]
      ∧ (q.MetricType = MetricTypeCPULoad →
          averages = [("cpu_load", Bson.D [("$avg", Bson.str "$cpu_load")])])
      ∧ (q.MetricType = MetricTypeConcurrency →
          averages = [("concurrency", Bson.D [("$avg", Bson.str "$concurrency")])])
      ∧ (q.MetricType = MetricTypeNone →
          averages = [("cpu_load", Bson.D [("$avg", Bson.str "$cpu_load")]),
                      ("concurrency", Bson.D [("$avg", Bson.str "$concurrency")])]) := by
  have hfreq : (if q.Frequency = FrequencyBySeconds ∨ q.Frequency = FrequencyByMinutes
        ∨ q.Frequency = FrequencyNone then "minute"
      else if q.Frequency = FrequencyByHours then "hour"
      else if q.Frequency = FrequencyByDays then "day"
      else if q.Frequency = FrequencyByMonths then "month"
      else if q.Frequency = FrequencyByYears then "year"
      else "") = unit := by
    simp only [List.mem_cons, Prod.mk.injEq, List.mem_singleton, List.mem_nil_iff,
      or_false] at hunit
    rcases hunit with ⟨h, rfl⟩ | ⟨h, rfl⟩ | ⟨h, rfl⟩ | ⟨h, rfl⟩ <;> rw [h] <;> decide
  have hguard : q.Frequency ≠ FrequencyNone ∧ q.Frequency ≠ FrequencyByMinutes := by
    simp only [List.mem_cons, Prod.mk.injEq, List.mem_singleton, List.mem_nil_iff,
      or_false] at hunit
    rcases hunit with ⟨h, _⟩ | ⟨h, _⟩ | ⟨h, _⟩ | ⟨h, _⟩ <;> rw [h] <;> decide
  refine ⟨by simp only [GetSeries, if_pos hguard], ?_⟩
  by_cases hc : q.MetricType = MetricTypeConcurrency
  · refine ⟨[("concurrency", Bson.D [("$avg", Bson.str "$concurrency")])], ?_, ?_,
      fun _ => rfl, ?_⟩
    · simp only [getSeriesByFrequency, hfreq, if_pos hc, AggregateOptions.SetMaxTime,
        AggregateOptions.Aggregate]
    · intro h; rw [hc] at h; exact absurd h (by decide)
    · intro h; rw [hc] at h; exact absurd h (by decide)
  · by_cases hl : q.MetricType = MetricTypeCPULoad
    · refine ⟨[("cpu_load", Bson.D [("$avg", Bson.str "$cpu_load")])], ?_, fun _ => rfl,
        ?_, ?_⟩
      · simp only [getSeriesByFrequency, hfreq, if_neg hc, if_pos hl,
          AggregateOptions.SetMaxTime, AggregateOptions.Aggregate]
      · intro h; exact absurd h hc
      · intro h; rw [hl] at h; exact absurd h (by decide)
    · refine ⟨[("cpu_load", Bson.D [("$avg", Bson.str "$cpu_load")]),
          ("concurrency", Bson.D [("$avg", Bson.str "$concurrency")])], ?_, ?_, ?_,
        fun _ => rfl⟩
      · simp only [getSeriesByFrequency, hfreq, if_neg hc, if_neg hl,
          AggregateOptions.SetMaxTime, AggregateOptions.Aggregate]
      · intro h; exact absurd h hl
      · intro h; exact absurd h hc

/-- C7 at a concrete input: hourly buckets of `concurrency`. -/
theorem getSeriesByFrequency_group_stage_witness :
    (hoursQuery.Frequency, "hour") ∈ [(FrequencyByHours, "hour"), (FrequencyByDays, "day"),
        (FrequencyByMonths, "month"), (FrequencyByYears, "year")]
    ∧ hoursQuery.MetricType = MetricTypeConcurrency
    ∧ GetSeries (cursorStorage (seriesCursor [])) hoursQuery
        = getSeriesByFrequency (cursorStorage (seriesCursor [])) hoursQuery
    ∧ ∃ averages,
      (getSeriesByFrequency (cursorStorage (seriesCursor [])) hoursQuery).calls
        = [StoreCall.Aggregate (cursorStorage (seriesCursor [])).database
            (cursorStorage (seriesCursor [])).collection
            [Bson.D [("$match", Bson.D [("timestamp",
                Bson.M [("$lte", Bson.time hoursQuery.EndAt),
                        ("$gte", Bson.time hoursQuery.StartAt)])])],
             Bson.D [("$group", Bson.D (
                ("_id", Bson.D [("frequency", Bson.D [("$dateTrunc",
                  Bson.M [("date", Bson.str "$timestamp"), ("unit", Bson.str "hour")])])])
                :: averages))],
             Bson.D [("$project", Bson.D [
                ("timestamp", Bson.str "$_id.frequency"),
                ("cpu_load", Bson.str "$cpu_load"),
                ("concurrency", Bson.str "$concurrency")])]]
            ⟨some (2 * Second)⟩]
      ∧ (hoursQuery.MetricType = MetricTypeCPULoad →
          averages = [("cpu_load", Bson.D [("$avg", Bson.str "$cpu_load")])])
      ∧ (hoursQuery.MetricType = MetricTypeConcurrency →
          averages = [("concurrency", Bson.D [("$avg", Bson.str "$concurrency")])])
      ∧ (hoursQuery.MetricType = MetricTypeNone →
          averages = [("cpu_load", Bson.D [("$avg", Bson.str "$cpu_load")]),
                      ("concurrency", Bson.D [("$avg", Bson.str "$concurrency")])]) :=
  ⟨by decide, by decide,
    getSeriesByFrequency_group_stage (cursorStorage (seriesCursor [])) hoursQuery "hour"
      (by decide)⟩

/-! ## Theorems: `buildQueryFilter` -/

/-- The success path of `buildQueryFilter`. -/
theorem buildQueryFilter_success (w : ResponseWriter) (r : Request) (startInt endInt : Int)
    (frequency : Frequency) (mType : MetricType)
    (hstart : Atoi (r.Query.Get "start") = Except.ok startInt)
    (hend : Atoi (r.Query.Get "end") = Except.ok endInt)
    (hfreq : (r.Query.Get "frequency", frequency) ∈
      [("", FrequencyNone), ("seconds", FrequencyBySeconds), ("minutes", FrequencyByMinutes),
       ("hours", FrequencyByHours), ("days", FrequencyByDays), ("months", FrequencyByMonths),
       ("years", FrequencyByYears)])
    (htype : (r.Var "type", mType) ∈
      [("", MetricTypeNone), ("cpu_load", MetricTypeCPULoad),
       ("concurrency", MetricTypeConcurrency)]) :
    buildQueryFilter w r
      = (w, some { StartAt := ⟨startInt, 0⟩, EndAt := ⟨endInt, 0⟩,
                   MetricType := mType, Frequency := frequency }) := by
  have h0 : Atoi "" = Except.error NumError.ErrSyntax := rfl
  have hs : r.Query.Get "start" ≠ "" := by
    intro h; rw [h, h0] at hstart; cases hstart
  have he : r.Query.Get "end" ≠ "" := by
    intro h; rw [h, h0] at hend; cases hend
  simp only [List.mem_cons, Prod.mk.injEq, List.mem_singleton, List.mem_nil_iff,
    or_false] at hfreq htype
  have hU : ∀ x : Int, Time.Unix x 0 = ⟨x, 0⟩ := fun x => by simp [Time.Unix]
  rcases hfreq with ⟨hf, rfl⟩ | ⟨hf, rfl⟩ | ⟨hf, rfl⟩ | ⟨hf, rfl⟩ | ⟨hf, rfl⟩ | ⟨hf, rfl⟩
      | ⟨hf, rfl⟩ <;>
    rcases htype with ⟨ht, rfl⟩ | ⟨ht, rfl⟩ | ⟨ht, rfl⟩ <;>
    simp [buildQueryFilter, hs, he, hstart, hend, hf, ht, hU]

/-- C8: when `start` and `end` parse as integers, `frequency` is one of the seven accepted
strings and `type` one of the three, `buildQueryFilter` leaves the writer untouched and
returns the query with `StartAt = time.Unix(start, 0)`, `EndAt = time.Unix(end, 0)` and the
mapped metric type and frequency; no order between the two bounds is asked for. -/
theorem buildQueryFilter_valid (w : ResponseWriter) (r : Request) (startInt endInt : Int)
    (frequency : Frequency) (mType : MetricType)
    (hstart : Atoi (r.Query.Get "start") = Except.ok startInt)
    (hend : Atoi (r.Query.Get "end") = Except.ok endInt)
    (hfreq : (r.Query.Get "frequency", frequency) ∈
      [("", FrequencyNone), ("seconds", FrequencyBySeconds), ("minutes", FrequencyByMinutes),
       ("hours", FrequencyByHours), ("days", FrequencyByDays), ("months", FrequencyByMonths),
       ("years", FrequencyByYears)])
    (htype : (r.Var "type", mType) ∈
      [("", MetricTypeNone), ("cpu_load", MetricTypeCPULoad),
       ("concurrency", MetricTypeConcurrency)]) :
    buildQueryFilter w r
      = (w, some { StartAt := Time.Unix startInt 0, EndAt := Time.Unix endInt 0,
                   MetricType := mType, Frequency := frequency })
    ∧ Time.Unix startInt 0 = ⟨startInt, 0⟩ ∧ Time.Unix endInt 0 = ⟨endInt, 0⟩ := by
  have hU : ∀ x : Int, Time.Unix x 0 = ⟨x, 0⟩ := fun x => by simp [Time.Unix]
  refine ⟨?_, hU _, hU _⟩
  rw [hU, hU]
  exact buildQueryFilter_success w r startInt endInt frequency mType hstart hend hfreq htype

/-- C8 at a concrete input, with `start > end`. -/
theorem buildQueryFilter_valid_witness :
    Atoi (backwardsRequest.Query.Get "start") = Except.ok 1700003600
    ∧ Atoi (backwardsRequest.Query.Get "end") = Except.ok 1700000000
    ∧ (1700000000 : Int) < 1700003600
    ∧ (buildQueryFilter freshWriter backwardsRequest
        = (freshWriter, some { StartAt := Time.Unix 1700003600 0, EndAt := Time.Unix 1700000000 0,
                               MetricType := MetricTypeCPULoad, Frequency := FrequencyByHours })
      ∧ Time.Unix 1700003600 0 = ⟨1700003600, 0⟩ ∧ Time.Unix 1700000000 0 = ⟨1700000000, 0⟩) :=
  ⟨rfl, rfl, by decide,
    buildQueryFilter_valid freshWriter backwardsRequest 1700003600 1700000000 FrequencyByHours
      MetricTypeCPULoad rfl rfl (by decide) (by decide)⟩

/-- The body `writeError` appends: the object `{"message": message}`. -/
theorem writeError_body (w : ResponseWriter) (message : String) (code : Int) :
    (writeError w message code).Body = w.Body ++ [Json.obj [("message", Json.str message)]] := by
  simp only [writeError, ResponseWriter.Write, ResponseWriter.WriteHeader,
    ResponseWriter.HeaderSet]
  cases w.Code <;> rfl

/-- On a writer whose status is not yet written, `writeError` sets the status it is given. -/
theorem writeError_code (w : ResponseWriter) (message : String) (code : Int)
    (hfresh : w.Code = none) : (writeError w message code).Code = some code := by
  simp [writeError, ResponseWriter.Write, ResponseWriter.WriteHeader,
    ResponseWriter.HeaderSet, hfresh]

/-- Two `writeError` results on the same writer agree only when the messages do. -/
theorem writeError_message_inj (w : ResponseWriter) (a b : String) (c d : Int)
    (h : writeError w a c = writeError w b d) : a = b := by
  have hb := congrArg ResponseWriter.Body h
  rw [writeError_body, writeError_body] at hb
  have := List.append_cancel_left hb
  simpa using this

/-- C9: `buildQueryFilter` rejects a missing or malformed time range, producing no query.
When `start` or `end` is empty it writes the error "timerange wasn't specified", whatever
the other parameters are; when both are present and `start` does not parse, the message
names `start` and ends with its value; when `start` parses and `end` does not, the message
names `end` and ends with its value. -/
theorem buildQueryFilter_time_range_errors (w : ResponseWriter) (r : Request) :
    ((r.Query.Get "start" = "" ∨ r.Query.Get "end" = "") →
      buildQueryFilter w r = (writeError w "timerange wasn't specified" StatusBadRequest, none)
      ∧ (buildQueryFilter w r).1.Body
          = w.Body ++ [Json.obj [("message", Json.str "timerange wasn't specified")]])
    ∧ (r.Query.Get "start" ≠ "" → r.Query.Get "end" ≠ "" →
        ∀ err, Atoi (r.Query.Get "start") = Except.error err →
          buildQueryFilter w r
            = (writeError w
                ("start timestamp is not valid; expected to be epoch format, but received "
                  ++ r.Query.Get "start") StatusBadRequest, none)
          ∧ (buildQueryFilter w r).1.Body
              = w.Body ++ [Json.obj [("message", Json.str
                  ("start timestamp is not valid; expected to be epoch format, but received "
                    ++ r.Query.Get "start"))]])
    ∧ (r.Query.Get "start" ≠ "" → r.Query.Get "end" ≠ "" →
        ∀ startInt err, Atoi (r.Query.Get "start") = Except.ok startInt →
          Atoi (r.Query.Get "end") = Except.error err →
          buildQueryFilter w r
            = (writeError w
                ("end timestamp is not valid; expected to be epoch format, but received "
                  ++ r.Query.Get "end") StatusBadRequest, none)
          ∧ (buildQueryFilter w r).1.Body
              = w.Body ++ [Json.obj [("message", Json.str
                  ("end timestamp is not valid; expected to be epoch format, but received "
                    ++ r.Query.Get "end"))]]) := by
  refine ⟨?_, ?_, ?_⟩
  · intro h
    have h1 : buildQueryFilter w r
        = (writeError w "timerange wasn't specified" StatusBadRequest, none) := by
      simp only [buildQueryFilter, if_pos h]
    exact ⟨h1, by rw [h1]; exact writeError_body _ _ _⟩
  · intro hs he err herr
    have hne : ¬ (r.Query.Get "start" = "" ∨ r.Query.Get "end" = "") := by
      rintro (h | h)
      · exact hs h
      · exact he h
    have h1 : buildQueryFilter w r
        = (writeError w
            ("start timestamp is not valid; expected to be epoch format, but received "
              ++ r.Query.Get "start") StatusBadRequest, none) := by
      simp only [buildQueryFilter, if_neg hne, herr]
    exact ⟨h1, by rw [h1]; exact writeError_body _ _ _⟩
  · intro hs he startInt err hstart herr
    have hne : ¬ (r.Query.Get "start" = "" ∨ r.Query.Get "end" = "") := by
      rintro (h | h)
      · exact hs h
      · exact he h
    have h1 : buildQueryFilter w r
        = (writeError w
            ("end timestamp is not valid; expected to be epoch format, but received "
              ++ r.Query.Get "end") StatusBadRequest, none) := by
      simp only [buildQueryFilter, if_neg hne, hstart, herr]
    exact ⟨h1, by rw [h1]; exact writeError_body _ _ _⟩

/-- C9 at three concrete requests, one for each rejection. -/
theorem buildQueryFilter_time_range_errors_witness :
    ((noEndRequest.Query.Get "start" = "" ∨ noEndRequest.Query.Get "end" = "")
      ∧ buildQueryFilter freshWriter noEndRequest
          = (writeError freshWriter "timerange wasn't specified" StatusBadRequest, none)
      ∧ (buildQueryFilter freshWriter noEndRequest).1.Body
          = freshWriter.Body ++ [Json.obj [("message", Json.str "timerange wasn't specified")]])
    ∧ (Atoi (badStartRequest.Query.Get "start") = Except.error NumError.ErrSyntax
      ∧ buildQueryFilter freshWriter badStartRequest
          = (writeError freshWriter
              ("start timestamp is not valid; expected to be epoch format, but received "
                ++ badStartRequest.Query.Get "start") StatusBadRequest, none)
      ∧ (buildQueryFilter freshWriter badStartRequest).1.Body
          = freshWriter.Body ++ [Json.obj [("message", Json.str
              ("start timestamp is not valid; expected to be epoch format, but received "
                ++ badStartRequest.Query.Get "start"))]])
    ∧ (Atoi (badEndRequest.Query.Get "start") = Except.ok 1700000000
      ∧ Atoi (badEndRequest.Query.Get "end") = Except.error NumError.ErrRange
      ∧ buildQueryFilter freshWriter badEndRequest
          = (writeError freshWriter
              ("end timestamp is not valid; expected to be epoch format, but received "
                ++ badEndRequest.Query.Get "end") StatusBadRequest, none)
      ∧ (buildQueryFilter freshWriter badEndRequest).1.Body
          = freshWriter.Body ++ [Json.obj [("message", Json.str
              ("end timestamp is not valid; expected to be epoch format, but received "
                ++ badEndRequest.Query.Get "end"))]]) :=
  ⟨⟨by decide,
      (buildQueryFilter_time_range_errors freshWriter noEndRequest).1 (by decide)⟩,
    ⟨rfl,
      (buildQueryFilter_time_range_errors freshWriter badStartRequest).2.1
        (by decide) (by decide) NumError.ErrSyntax rfl⟩,
    ⟨rfl, rfl,
      (buildQueryFilter_time_range_errors freshWriter badEndRequest).2.2
        (by decide) (by decide) 1700000000 NumError.ErrRange rfl rfl⟩⟩

/-- With a valid time range and an accepted frequency, a `type` that is none of the three
accepted strings is answered with the metric-type error. -/
theorem buildQueryFilter_type_rejected (w : ResponseWriter) (r : Request)
    (startInt endInt : Int) (frequency : Frequency)
    (hstart : Atoi (r.Query.Get "start") = Except.ok startInt)
    (hend : Atoi (r.Query.Get "end") = Except.ok endInt)
    (hfreq : (r.Query.Get "frequency", frequency) ∈
      [("", FrequencyNone), ("seconds", FrequencyBySeconds), ("minutes", FrequencyByMinutes),
       ("hours", FrequencyByHours), ("days", FrequencyByDays), ("months", FrequencyByMonths),
       ("years", FrequencyByYears)])
    (htype : r.Var "type" ∉ ["", "cpu_load", "concurrency"]) :
    buildQueryFilter w r
      = (writeError w ("metric type is not valid; received " ++ r.Var "type")
          StatusBadRequest, none) := by
  have h0 : Atoi "" = Except.error NumError.ErrSyntax := rfl
  have hs : r.Query.Get "start" ≠ "" := by
    intro h; rw [h, h0] at hstart; cases hstart
  have he : r.Query.Get "end" ≠ "" := by
    intro h; rw [h, h0] at hend; cases hend
  simp only [List.mem_cons, Prod.mk.injEq, List.mem_singleton, List.mem_nil_iff,
    or_false, not_or] at hfreq htype
  obtain ⟨ht1, ht2, ht3⟩ := htype
  rcases hfreq with ⟨hf, rfl⟩ | ⟨hf, rfl⟩ | ⟨hf, rfl⟩ | ⟨hf, rfl⟩ | ⟨hf, rfl⟩ | ⟨hf, rfl⟩
      | ⟨hf, rfl⟩ <;>
    simp [buildQueryFilter, hs, he, hstart, hend, hf, ht1, ht2, ht3]

/-- The frequency error message and the metric-type error message differ, whatever the
offending values. -/
theorem frequency_message_ne_type_message (f t : String) :
    "metric type is not valid; received " ++ t ≠ "frequency value is not valid; received " ++ f := by
  intro h
  have h1 : ("metric type is not valid; received " ++ t).data.head? = some 'm' := by
    rw [String.data_append]; rfl
  have h2 : ("frequency value is not valid; received " ++ f).data.head? = some 'f' := by
    rw [String.data_append]; rfl
  rw [h, h2] at h1
  exact absurd h1 (by decide)

/-- C10: given a valid time range, `buildQueryFilter` accepts the frequency string exactly
when it is one of `""`, `"seconds"`, `"minutes"`, `"hours"`, `"days"`, `"months"`,
`"years"`, mapped to `None`, `Seconds`, `Minutes`, `Hours`, `Days`, `Months`, `Years`: for
such a string it does not write the frequency error and, with an accepted `type`, returns
the query carrying the mapped frequency; for every other string it produces no query and
writes the error "frequency value is not valid; received " followed by the string. -/
theorem buildQueryFilter_frequency (w : ResponseWriter) (r : Request) (startInt endInt : Int)
    (hstart : Atoi (r.Query.Get "start") = Except.ok startInt)
    (hend : Atoi (r.Query.Get "end") = Except.ok endInt) :
    (∀ frequency, (r.Query.Get "frequency", frequency) ∈
        [("", FrequencyNone), ("seconds", FrequencyBySeconds),
         ("minutes", FrequencyByMinutes), ("hours", FrequencyByHours),
         ("days", FrequencyByDays), ("months", FrequencyByMonths),
         ("years", FrequencyByYears)] →
      (∀ mType, (r.Var "type", mType) ∈
          [("", MetricTypeNone), ("cpu_load", MetricTypeCPULoad),
           ("concurrency", MetricTypeConcurrency)] →
        buildQueryFilter w r
          = (w, some { StartAt := ⟨startInt, 0⟩, EndAt := ⟨endInt, 0⟩,
                       MetricType := mType, Frequency := frequency }))
      ∧ buildQueryFilter w r
          ≠ (writeError w ("frequency value is not valid; received " ++ r.Query.Get "frequency")
              StatusBadRequest, none))
    ∧ (r.Query.Get "frequency" ∉
          ["", "seconds", "minutes", "hours", "days", "months", "years"] →
        buildQueryFilter w r
          = (writeError w ("frequency value is not valid; received " ++ r.Query.Get "frequency")
              StatusBadRequest, none)
        ∧ (buildQueryFilter w r).1.Body
            = w.Body ++ [Json.obj [("message", Json.str
                ("frequency value is not valid; received " ++ r.Query.Get "frequency"))]]) := by
  have h0 : Atoi "" = Except.error NumError.ErrSyntax := rfl
  have hs : r.Query.Get "start" ≠ "" := by
    intro h; rw [h, h0] at hstart; cases hstart
  have he : r.Query.Get "end" ≠ "" := by
    intro h; rw [h, h0] at hend; cases hend
  refine ⟨?_, ?_⟩
  · intro frequency hfreq
    refine ⟨fun mType htype =>
      buildQueryFilter_success w r startInt endInt frequency mType hstart hend hfreq htype, ?_⟩
    by_cases htype : r.Var "type" ∈ ["", "cpu_load", "concurrency"]
    · have : ∃ mType, (r.Var "type", mType) ∈
          [("", MetricTypeNone), ("cpu_load", MetricTypeCPULoad),
           ("concurrency", MetricTypeConcurrency)] := by
        simp only [List.mem_cons, List.mem_singleton, List.mem_nil_iff, or_false] at htype
        rcases htype with h | h | h
        · exact ⟨MetricTypeNone, by simp [h]⟩
        · exact ⟨MetricTypeCPULoad, by simp [h]⟩
        · exact ⟨MetricTypeConcurrency, by simp [h]⟩
      obtain ⟨mType, hm⟩ := this
      rw [buildQueryFilter_success w r startInt endInt frequency mType hstart hend hfreq hm]
      intro h
      have := congrArg Prod.snd h
      cases this
    · rw [buildQueryFilter_type_rejected w r startInt endInt frequency hstart hend hfreq htype]
      intro h
      have h1 := congrArg Prod.fst h
      exact frequency_message_ne_type_message _ _ (writeError_message_inj w _ _ _ _ h1)
  · intro hfreq
    simp only [List.mem_cons, List.mem_singleton, List.mem_nil_iff, or_false, not_or] at hfreq
    obtain ⟨h1, h2, h3, h4, h5, h6, h7⟩ := hfreq
    have hr : buildQueryFilter w r
        = (writeError w ("frequency value is not valid; received " ++ r.Query.Get "frequency")
            StatusBadRequest, none) := by
      simp [buildQueryFilter, hs, he, hstart, hend, h1, h2, h3, h4, h5, h6, h7]
    exact ⟨hr, by rw [hr]; exact writeError_body _ _ _⟩

/-- C10 at the frequency `weeks`: no query, and the message ends with `weeks`. -/
theorem buildQueryFilter_frequency_witness :
    Atoi (weeksRequest.Query.Get "start") = Except.ok 1700000000
    ∧ Atoi (weeksRequest.Query.Get "end") = Except.ok 1700003600
    ∧ weeksRequest.Query.Get "frequency" ∉
        ["", "seconds", "minutes", "hours", "days", "months", "years"]
    ∧ (buildQueryFilter freshWriter weeksRequest
        = (writeError freshWriter
            ("frequency value is not valid; received " ++ weeksRequest.Query.Get "frequency")
            StatusBadRequest, none)
      ∧ (buildQueryFilter freshWriter weeksRequest).1.Body
          = freshWriter.Body ++ [Json.obj [("message", Json.str
              ("frequency value is not valid; received "
                ++ weeksRequest.Query.Get "frequency"))]]) :=
  ⟨rfl, rfl, by decide,
    (buildQueryFilter_frequency freshWriter weeksRequest 1700000000 1700003600 rfl rfl).2
      (by decide)⟩

/-- A rejection by `buildQueryFilter` is always a `writeError` with status 400. -/
theorem buildQueryFilter_rejected (w : ResponseWriter) (r : Request)
    (hrej : (buildQueryFilter w r).2 = none) :
    ∃ msg, buildQueryFilter w r = (writeError w msg StatusBadRequest, none) := by
  unfold buildQueryFilter at hrej ⊢
  dsimp only at hrej ⊢
  repeat' split
  all_goals first
    | exact ⟨_, rfl⟩
    | (exfalso; simp_all)

/-- When `buildQueryFilter` returns a query it has not touched the writer. -/
theorem buildQueryFilter_accepted (w : ResponseWriter) (r : Request) (filter : Query)
    (hacc : (buildQueryFilter w r).2 = some filter) :
    buildQueryFilter w r = (w, some filter) := by
  unfold buildQueryFilter at hacc ⊢
  dsimp only at hacc ⊢
  repeat' split
  all_goals first
    | (exfalso; simp_all; done)
    | simp_all

/-- C11: given a valid time range and an accepted frequency, `buildQueryFilter` accepts
the `type` path segment exactly when it is one of `""`, `"cpu_load"`, `"concurrency"`,
mapped to `MetricTypeNone`, `MetricTypeCPULoad`, `MetricTypeConcurrency`: for such a
string it returns the query carrying the mapped metric type and writes nothing; for every
other string it produces no query and writes the error
"metric type is not valid; received " followed by the string. -/
theorem buildQueryFilter_metric_type (w : ResponseWriter) (r : Request)
    (startInt endInt : Int) (frequency : Frequency)
    (hstart : Atoi (r.Query.Get "start") = Except.ok startInt)
    (hend : Atoi (r.Query.Get "end") = Except.ok endInt)
    (hfreq : (r.Query.Get "frequency", frequency) ∈
      [("", FrequencyNone), ("seconds", FrequencyBySeconds), ("minutes", FrequencyByMinutes),
       ("hours", FrequencyByHours), ("days", FrequencyByDays), ("months", FrequencyByMonths),
       ("years", FrequencyByYears)]) :
    (∀ mType, (r.Var "type", mType) ∈
        [("", MetricTypeNone), ("cpu_load", MetricTypeCPULoad),
         ("concurrency", MetricTypeConcurrency)] →
      buildQueryFilter w r
        = (w, some { StartAt := ⟨startInt, 0⟩, EndAt := ⟨endInt, 0⟩,
                     MetricType := mType, Frequency := frequency }))
    ∧ (r.Var "type" ∉ ["", "cpu_load", "concurrency"] →
        buildQueryFilter w r
          = (writeError w ("metric type is not valid; received " ++ r.Var "type")
              StatusBadRequest, none)
        ∧ (buildQueryFilter w r).1.Body
            = w.Body ++ [Json.obj [("message", Json.str
                ("metric type is not valid; received " ++ r.Var "type"))]]) := by
  refine ⟨fun mType htype =>
    buildQueryFilter_success w r startInt endInt frequency mType hstart hend hfreq htype, ?_⟩
  intro htype
  have hr := buildQueryFilter_type_rejected w r startInt endInt frequency hstart hend hfreq htype
  exact ⟨hr, by rw [hr]; exact writeError_body _ _ _⟩

/-- C11 at the metric type `disk`: no query, and the message ends with `disk`. -/
theorem buildQueryFilter_metric_type_witness :
    Atoi (diskRequest.Query.Get "start") = Except.ok 1700000000
    ∧ Atoi (diskRequest.Query.Get "end") = Except.ok 1700003600
    ∧ (diskRequest.Query.Get "frequency", FrequencyByDays) ∈
        [("", FrequencyNone), ("seconds", FrequencyBySeconds),
         ("minutes", FrequencyByMinutes), ("hours", FrequencyByHours),
         ("days", FrequencyByDays), ("months", FrequencyByMonths),
         ("years", FrequencyByYears)]
    ∧ diskRequest.Var "type" ∉ ["", "cpu_load", "concurrency"]
    ∧ (buildQueryFilter freshWriter diskRequest
        = (writeError freshWriter
            ("metric type is not valid; received " ++ diskRequest.Var "type")
            StatusBadRequest, none)
      ∧ (buildQueryFilter freshWriter diskRequest).1.Body
          = freshWriter.Body ++ [Json.obj [("message", Json.str
              ("metric type is not valid; received " ++ diskRequest.Var "type"))]]) :=
  ⟨rfl, rfl, by decide, by decide,
    (buildQueryFilter_metric_type freshWriter diskRequest 1700000000 1700003600
      FrequencyByDays rfl rfl (by decide)).2 (by decide)⟩

/-! ## Theorems: `Handler.GetTimeline` and `Handler.GetAverage` -/

/-- C12: when `buildQueryFilter` rejects the request, `Handler.GetTimeline` and
`Handler.GetAverage` invoke no method of the store and return with the status 400 written
(the writer had no status yet); the writer they leave is the same for every store. -/
theorem handlers_reject_bad_request (rt : Runtime) (w : ResponseWriter) (r : Request)
    (hfresh : w.Code = none)
    (hrej : (buildQueryFilter w r).2 = none) :
    ∃ w', w'.Code = some StatusBadRequest
      ∧ w' = (buildQueryFilter w r).1
      ∧ (∀ h : Handler, h.GetTimeline rt w r = ⟨[], Handled.returned w'⟩)
      ∧ (∀ h : Handler, h.GetAverage rt w r = ⟨[], Handled.returned w'⟩) := by
  obtain ⟨msg, hmsg⟩ := buildQueryFilter_rejected w r hrej
  refine ⟨writeError w msg StatusBadRequest, writeError_code w msg StatusBadRequest hfresh,
    by rw [hmsg], ?_, ?_⟩
  · intro h
    simp only [Handler.GetTimeline, hmsg]
  · intro h
    simp only [Handler.GetAverage, hmsg]

/-- C12 at the request with frequency `weeks`, against a store that would return data and
one that would fail. -/
theorem handlers_reject_bad_request_witness :
    freshWriter.Code = none
    ∧ (buildQueryFilter freshWriter weeksRequest).2 = none
    ∧ (Handler.mk (mockStore threeSamples)).GetTimeline sampleRuntime freshWriter weeksRequest
        = (Handler.mk (failingStore GoError.ErrNoDocuments)).GetTimeline sampleRuntime
            freshWriter weeksRequest
    ∧ ∃ w', w'.Code = some StatusBadRequest
      ∧ w' = (buildQueryFilter freshWriter weeksRequest).1
      ∧ (∀ h : Handler, h.GetTimeline sampleRuntime freshWriter weeksRequest
          = ⟨[], Handled.returned w'⟩)
      ∧ (∀ h : Handler, h.GetAverage sampleRuntime freshWriter weeksRequest
          = ⟨[], Handled.returned w'⟩) :=
  ⟨rfl, rfl, rfl,
    handlers_reject_bad_request sampleRuntime freshWriter weeksRequest rfl rfl⟩

/-- A zero `float64` is neither NaN nor infinite. -/
theorem Float64.isZero_not_isNaNOrInf (f : Float64) (h : f.isZero = true) :
    f.isNaNOrInf = false := by
  simp only [Float64.isZero, Float64.isNaNOrInf, decide_eq_true_eq, decide_eq_false_iff_not] at *
  norm_num at *
  omega

/-- One sample marshals exactly when its timestamp does and its `cpu_load` is neither NaN
nor infinite. -/
theorem marshalMetric_ok_iff (rt : Runtime) (x : Metric) :
    (∃ item, marshalMetric rt x = Except.ok item)
      ↔ ((∃ text, rt.TimeMarshalJSON x.Timestamp = Except.ok text)
          ∧ x.CPULoad.isNaNOrInf = false) := by
  unfold marshalMetric marshalTime marshalFloatOmitEmpty
  cases ht : rt.TimeMarshalJSON x.Timestamp with
  | error err => simp
  | ok text =>
      by_cases hz : x.CPULoad.isZero = true
      · simp [hz, Float64.isZero_not_isNaNOrInf x.CPULoad hz]
      · by_cases hn : x.CPULoad.isNaNOrInf = true
        · simp [hz, hn]
        · simp [hz, hn]

/-- A slice marshals exactly when each of its samples does; the array has one item for
each sample. -/
theorem marshalMetrics_ok_iff (rt : Runtime) (series : List Metric) :
    (∃ items, marshalMetrics rt series = Except.ok items)
      ↔ ∀ x ∈ series, (∃ text, rt.TimeMarshalJSON x.Timestamp = Except.ok text)
          ∧ x.CPULoad.isNaNOrInf = false := by
  induction series with
  | nil => simp [marshalMetrics]
  | cons x xs ih =>
      have hx := marshalMetric_ok_iff rt x
      simp only [List.mem_cons, forall_eq_or_imp, ← ih, ← hx]
      cases h1 : marshalMetric rt x with
      | error err => simp [marshalMetrics, h1]
      | ok item =>
          cases h2 : marshalMetrics rt xs with
          | error err => simp [marshalMetrics, h1, h2]
          | ok items => simp [marshalMetrics, h1, h2]

/-- The items of a marshalled slice are as many as its samples. -/
theorem marshalMetrics_length (rt : Runtime) (series : List Metric) (items : List Json)
    (h : marshalMetrics rt series = Except.ok items) : items.length = series.length := by
  induction series generalizing items with
  | nil =>
      simp only [marshalMetrics] at h
      cases h
      rfl
  | cons x xs ih =>
      cases h1 : marshalMetric rt x with
      | error err => simp [marshalMetrics, h1] at h
      | ok item =>
          cases h2 : marshalMetrics rt xs with
          | error err => simp [marshalMetrics, h1, h2] at h
          | ok rest =>
              simp only [marshalMetrics, h1, h2] at h
              cases h
              simp [ih rest h2]

/-- C13 as stated fails: for the valid request of the handler test and a store that
returns, without error, a series of one sample whose `cpu_load` is NaN, the series is not
empty and yet `Handler.GetTimeline` answers with status 500, not 200: `json.Marshal`
rejects the value. -/
theorem GetTimeline_nan_series_is_500 :
    (buildQueryFilter freshWriter timelineRequest).2
      = some ⟨⟨1699999940, 0⟩, ⟨1700000000, 0⟩, MetricTypeCPULoad, FrequencyByMinutes⟩
    ∧ (mockStore nanSeries).GetSeries
        ⟨⟨1699999940, 0⟩, ⟨1700000000, 0⟩, MetricTypeCPULoad, FrequencyByMinutes⟩
        = Outcome.returned nanSeries none
    ∧ nanSeries.length = 1
    ∧ ((Handler.mk (mockStore nanSeries)).GetTimeline sampleRuntime freshWriter
          timelineRequest).result
        = Handled.returned
            ⟨[("Content-Type", "application/json")], some 500,
             [Json.obj [("message", Json.str "json: unsupported value: NaN")]]⟩ := by
  refine ⟨rfl, rfl, rfl, rfl⟩

/-- C13 as amended: for a request with valid parameters `Handler.GetTimeline` invokes
`GetSeries` of the store once, with the filter built, and its response follows from what
that returns: status 500 when it returns an error; status 404 when it returns an empty
series without error; otherwise status 200 with a JSON array of exactly as many items as
the series when the series marshals, and status 500 when it does not. The series marshals
exactly when every timestamp marshals and no `cpu_load` is NaN or infinite. -/
theorem GetTimeline_response (rt : Runtime) (h : Handler) (w : ResponseWriter) (r : Request)
    (filter : Query)
    (hfresh : w.Code = none)
    (hvalid : (buildQueryFilter w r).2 = some filter) :
    (h.GetTimeline rt w r).calls = [StoreMethod.GetSeries filter]
    ∧ (∀ series err, h.store.GetSeries filter = Outcome.returned series (some err) →
        ∃ w', (h.GetTimeline rt w r).result = Handled.returned w'
          ∧ w'.Code = some StatusInternalServerError)
    ∧ (h.store.GetSeries filter = Outcome.returned [] none →
        ∃ w', (h.GetTimeline rt w r).result = Handled.returned w'
          ∧ w'.Code = some StatusNotFound)
    ∧ (∀ series, series ≠ [] → h.store.GetSeries filter = Outcome.returned series none →
        (∀ jsonResp, MarshalSeries rt series = Except.ok jsonResp →
          ∃ w' items, (h.GetTimeline rt w r).result = Handled.returned w'
            ∧ w'.Code = some StatusOK
            ∧ w'.Body = w.Body ++ [Json.arr items]
            ∧ items.length = series.length)
        ∧ (∀ err, MarshalSeries rt series = Except.error err →
          ∃ w', (h.GetTimeline rt w r).result = Handled.returned w'
            ∧ w'.Code = some StatusInternalServerError)
        ∧ ((∃ jsonResp, MarshalSeries rt series = Except.ok jsonResp)
            ↔ ∀ x ∈ series, (∃ text, rt.TimeMarshalJSON x.Timestamp = Except.ok text)
                ∧ x.CPULoad.isNaNOrInf = false)) := by
  have hq := buildQueryFilter_accepted w r filter hvalid
  refine ⟨?_, ?_, ?_, ?_⟩
  · simp only [Handler.GetTimeline, hq]
  · intro series err hstore
    refine ⟨writeError w err.Error StatusInternalServerError, ?_, writeError_code _ _ _ hfresh⟩
    simp only [Handler.GetTimeline, hq, hstore]
  · intro hstore
    refine ⟨writeError w
      ("data for specified filter does not exist; filter: " ++ rt.SprintQuery filter)
      StatusNotFound, ?_, writeError_code _ _ _ hfresh⟩
    simp [Handler.GetTimeline, hq, hstore]
  · intro series hne hstore
    have hlen : ¬ series.length = 0 := by
      intro h0
      exact hne (List.length_eq_zero.mp h0)
    refine ⟨?_, ?_, ?_⟩
    · intro jsonResp hm
      have hm' := hm
      unfold MarshalSeries at hm'
      cases hitems : marshalMetrics rt series with
      | error err => simp [hitems] at hm'
      | ok items =>
          simp only [hitems] at hm'
          cases hm'
          refine ⟨((w.HeaderSet "Content-Type" "application/json").WriteHeader StatusOK).Write
            (Json.arr items), items, ?_, ?_, ?_, marshalMetrics_length rt series items hitems⟩
          · simp only [Handler.GetTimeline, hq, hstore, if_neg hlen, hm]
          · simp [ResponseWriter.Write, ResponseWriter.WriteHeader, ResponseWriter.HeaderSet,
              hfresh, StatusOK]
          · simp [ResponseWriter.Write, ResponseWriter.WriteHeader, ResponseWriter.HeaderSet,
              hfresh]
    · intro err hm
      refine ⟨writeError w err.Error StatusInternalServerError, ?_, writeError_code _ _ _ hfresh⟩
      simp only [Handler.GetTimeline, hq, hstore, if_neg hlen, hm]
    · rw [← marshalMetrics_ok_iff]
      unfold MarshalSeries
      cases hitems : marshalMetrics rt series with
      | error err => simp
      | ok items => simp

/-- C13 at the inputs of the handler test: the store that returns the three samples gives
status 200 and an array of three items. -/
theorem GetTimeline_response_witness :
    freshWriter.Code = none
    ∧ (buildQueryFilter freshWriter timelineRequest).2
        = some ⟨⟨1699999940, 0⟩, ⟨1700000000, 0⟩, MetricTypeCPULoad, FrequencyByMinutes⟩
    ∧ threeSamples ≠ []
    ∧ (∃ w' items,
        ((Handler.mk (mockStore threeSamples)).GetTimeline sampleRuntime freshWriter
            timelineRequest).result = Handled.returned w'
        ∧ w'.Code = some StatusOK
        ∧ w'.Body = freshWriter.Body ++ [Json.arr items]
        ∧ items.length = threeSamples.length)
    ∧ (∃ w',
        ((Handler.mk (mockStore [])).GetTimeline sampleRuntime freshWriter
            timelineRequest).result = Handled.returned w'
        ∧ w'.Code = some StatusNotFound) :=
  ⟨rfl, rfl, by decide,
    ((GetTimeline_response sampleRuntime (Handler.mk (mockStore threeSamples)) freshWriter
        timelineRequest _ rfl rfl).2.2.2 threeSamples (by decide) rfl).1 _ rfl,
    (GetTimeline_response sampleRuntime (Handler.mk (mockStore [])) freshWriter
        timelineRequest _ rfl rfl).2.2.1 rfl⟩

end TimeseriesDB
